import Mathlib

/-!
Verification of the template instantiation engine in `src/template.rs`.

The engine operates on the node model of the external `wikitext_simplified`
crate; that crate, the grammar parser, and the serializer are external
collaborators specified only at the boundary (spec §3, §4.1, §6), so they are
modelled here from the spec: the node model as a closed inductive family and
the parser/serializer as an abstract interface `ExternalWikitext`.  Everything
in `template.rs` itself (normalization, loading, the parse cache, parameter
resolution, the substitution pass, the table convergence loop, the cell
reparse fix-up, and `instantiate`) is translated directly from the source,
with a fuel parameter standing in for the unbounded recursion of the Rust
code (`IResult.outOfFuel` models divergence, `IResult.fail` models a
panic or a propagated fatal error).
-/

/-- TemplateParameter from the `wikitext_simplified` crate (spec §3): a
caller-supplied argument with a raw, unparsed text value. -/
structure TemplateParameter where
  name : String
  value : String
deriving Repr, DecidableEq

/-- PageContext from `src/page_context.rs`; `route_path` is an external
`paxhtml` value unused by the engine and is omitted. -/
structure PageContext where
  input_path : String
  title : String
  sub_page_name : String
deriving Repr, DecidableEq

mutual

/-- Modelled from the spec: the node model of the external
`wikitext_simplified` crate (spec §3).  `Other` stands for all the inert
pass-through variants (formatting wrappers, lists, headings, links, ...)
which hold children but carry no expansion semantics. -/
inductive WikitextSimplifiedNode where
  | Fragment (children : List WikitextSimplifiedNode)
  | Template (name : String) (parameters : List TemplateParameter)
  | TemplateParameterUse (name : String) (default : Option (List WikitextSimplifiedNode))
  | Text (text : String)
  | Table (attributes : Option (List WikitextSimplifiedNode))
      (captions : List WikitextSimplifiedNode) (rows : List TableRow)
  | Other (tag : String) (children : List WikitextSimplifiedNode)

/-- Modelled from the spec: a table row (spec §3). -/
inductive TableRow where
  | mk (attributes : Option (List WikitextSimplifiedNode)) (cells : List TableCell)

/-- Modelled from the spec: a table cell (spec §3); attributes are optional,
as in `parse_optional_attributes_from_wsn` in `src/main.rs`. -/
inductive TableCell where
  | mk (attributes : Option (List WikitextSimplifiedNode))
      (content : List WikitextSimplifiedNode)

end

def TableRow.attributes : TableRow → Option (List WikitextSimplifiedNode)
  | .mk a _ => a

def TableRow.cells : TableRow → List TableCell
  | .mk _ c => c

def TableCell.attributes : TableCell → Option (List WikitextSimplifiedNode)
  | .mk a _ => a

def TableCell.content : TableCell → List WikitextSimplifiedNode
  | .mk _ c => c

/-- ASCII lowercasing of one character, as in Rust's
`char::to_ascii_lowercase`. -/
def asciiLowerChar (c : Char) : Char :=
  if ( 'A' ≤ c ∧ c ≤ 'Z' ) then Char.ofNat (c.toNat + 32) else c

/-- ASCII lowercasing of a string (template names are ASCII; Rust
`to_lowercase` agrees with ASCII lowering on them). -/
def lowerAscii (s : String) : String :=
  String.mk (s.toList.map asciiLowerChar)

/-- Rust `str::replace(" ", "_")`, character by character. -/
def replaceSpaces (s : String) : String :=
  String.mk (s.toList.map (fun c => if c = ' ' then '_' else c))

/-- Rust `str::eq_ignore_ascii_case`: ASCII-only case-insensitive equality. -/
def eqIgnoreAsciiCase (a b : String) : Bool :=
  lowerAscii a == lowerAscii b

/-- Key normalization used by the loader, the cache and the mock loader
(`src/template.rs` lines 58, 153, 338): lowercase and replace spaces with
underscores. -/
def normalizeKey (name : String) : String :=
  replaceSpaces (lowerAscii name)

/-- Character-list infix test, the helper for `strContainsSub`. -/
def listInfixOf (pat : List Char) : List Char → Bool
  | [] => pat.isEmpty
  | c :: cs => pat.isPrefixOf (c :: cs) || listInfixOf pat cs

/-- Rust `str::contains` for substring tests (used by the markup check in
`reparse_table_cells`). -/
def strContainsSub (s pat : String) : Bool :=
  listInfixOf pat.toList s.toList

/-- Modelled from the spec: the external grammar parser and serializer
collaborators (spec §6), which are not part of this repository's sources.
`parse` is `wikitext_simplified::parse_and_simplify_wikitext` (with the
grammar configuration baked in) and `toWikitext` is the total serializer
`WikitextSimplifiedNode::to_wikitext`. -/
structure ExternalWikitext where
  parse : String → Except String (List WikitextSimplifiedNode)
  toWikitext : WikitextSimplifiedNode → String

/-- Outcome of a (fuel-bounded) run of the engine: `ok` is a normal return,
`fail` models a Rust panic or propagated `anyhow` error, `outOfFuel` means
the fuel bound was hit (the Rust original would keep recursing). -/
inductive IResult (α : Type) where
  | ok (val : α)
  | fail (msg : String)
  | outOfFuel

/-- The template parse cache `Templates::templates`, modelled as an
association list keyed by normalized name. -/
abbrev TemplateCache := List (String × WikitextSimplifiedNode)

def cacheLookup : TemplateCache → String → Option WikitextSimplifiedNode
  | [], _ => none
  | (k, v) :: rest, key => if k == key then some v else cacheLookup rest key

/-- The argument to `Templates::instantiate`: either a template name or an
already-built node tree (`src/template.rs` lines 314-318). -/
inductive TemplateToInstantiate where
  | Name (name : String)
  | Node (node : WikitextSimplifiedNode)

/-- Embedding of `FileSystemLoader::load` (`src/template.rs` lines 56-72), with the
filesystem abstracted to a map from normalized key to file content.  On a
missing key the error message carries both the requested name and the
normalized key, exactly as the Rust format string does. -/
def loadTemplate (store : String → Option String) (name : String) :
    Except String String :=
  let key := normalizeKey name
  match store key with
  | none => Except.error ("Template not found: " ++ name ++ " -> " ++ key)
  | some content => Except.ok content

/-- Embedding of `Templates::get` (`src/template.rs` lines 152-171): parse-on-miss lookup
in the cache.  The returned cache is unchanged on a hit and extended by
exactly one new binding on a miss. -/
def getTemplate (E : ExternalWikitext) (store : String → Option String)
    (cache : TemplateCache) (name : String) :
    Except String (WikitextSimplifiedNode × TemplateCache) :=
  let key := normalizeKey name
  match cacheLookup cache key with
  | some t => Except.ok (t, cache)
  | none =>
    match loadTemplate store name with
    | Except.error e => Except.error e
    | Except.ok content =>
      match E.parse content with
      | Except.error e =>
        Except.error ("Failed to parse and simplify template " ++ name ++ ": " ++ e)
      | Except.ok simplified =>
        Except.ok (WikitextSimplifiedNode.Fragment simplified,
          (key, WikitextSimplifiedNode.Fragment simplified) :: cache)

mutual

/-- The termination-check predicate of `instantiate` (`src/template.rs` lines
199-209): does the tree contain a `Template` or `TemplateParameterUse` node
anywhere, computed via the crate's read-only `visit` which descends into
every composite node including table attributes, captions, rows and cells
(spec §4.1). -/
def containsUnresolved : WikitextSimplifiedNode → Bool
  | .Fragment cs => containsUnresolvedList cs
  | .Template _ _ => true
  | .TemplateParameterUse _ _ => true
  | .Text _ => false
  | .Table attrs caps rows =>
    containsUnresolvedOpt attrs || containsUnresolvedList caps ||
      containsUnresolvedRows rows
  | .Other _ cs => containsUnresolvedList cs

def containsUnresolvedList : List WikitextSimplifiedNode → Bool
  | [] => false
  | n :: ns => containsUnresolved n || containsUnresolvedList ns

def containsUnresolvedOpt : Option (List WikitextSimplifiedNode) → Bool
  | none => false
  | some l => containsUnresolvedList l

def containsUnresolvedRows : List TableRow → Bool
  | [] => false
  | .mk attrs cells :: rs =>
    containsUnresolvedOpt attrs || containsUnresolvedCells cells ||
      containsUnresolvedRows rs

def containsUnresolvedCells : List TableCell → Bool
  | [] => false
  | .mk attrs content :: cs =>
    containsUnresolvedOpt attrs || containsUnresolvedList content ||
      containsUnresolvedCells cs

end

mutual

/-- The table check of `instantiate` (`src/template.rs` lines 263-272): does
the tree contain a `Table` node anywhere. -/
def containsTable : WikitextSimplifiedNode → Bool
  | .Fragment cs => containsTableList cs
  | .Template _ _ => false
  | .TemplateParameterUse _ d => containsTableOpt d
  | .Text _ => false
  | .Table _ _ _ => true
  | .Other _ cs => containsTableList cs

def containsTableList : List WikitextSimplifiedNode → Bool
  | [] => false
  | n :: ns => containsTable n || containsTableList ns

def containsTableOpt : Option (List WikitextSimplifiedNode) → Bool
  | none => false
  | some l => containsTableList l

end

/-- The `TemplateParameterUse` arm of the substitution pass
(`src/template.rs` lines 232-254): first matching argument by case-sensitive
name, else the magic context value for "subpagename" (ASCII
case-insensitive), else the serialized default, else empty text. -/
def resolveParameterUse (E : ExternalWikitext)
    (parameters : List TemplateParameter) (ctx : PageContext)
    (name : String) (default : Option (List WikitextSimplifiedNode)) :
    WikitextSimplifiedNode :=
  let fromArgs : Option String :=
    (parameters.find? (fun p => p.name == name)).map (fun p => p.value)
  let parameter : Option String :=
    match fromArgs with
    | some v => some v
    | none =>
      if eqIgnoreAsciiCase name "subpagename" then some ctx.sub_page_name
      else none
  match parameter with
  | some v => WikitextSimplifiedNode.Text v
  | none =>
    match default with
    | some d =>
      WikitextSimplifiedNode.Text (E.toWikitext (WikitextSimplifiedNode.Fragment d))
    | none => WikitextSimplifiedNode.Text ""

/-- The single-child `Fragment` flattening applied to the result of a nested
`instantiate` call (`src/template.rs` lines 224-230). -/
def unwrapSingleFragment : WikitextSimplifiedNode → WikitextSimplifiedNode
  | .Fragment [c] => c
  | n => n

/-- Shape of a recursive call into `Templates::instantiate` with the page
context, loader and configuration already fixed. -/
abbrev Instantiator :=
  TemplateCache → TemplateToInstantiate → List TemplateParameter →
    IResult (WikitextSimplifiedNode × TemplateCache)

mutual

/-- One substitution pass: the `replace_once` closure of
`Templates::instantiate` (`src/template.rs` lines 212-258), i.e.
`visit_and_replace_mut` with the transform that replaces `Template` nodes by
a recursive instantiation (single-child fragments unwrapped) and
`TemplateParameterUse` nodes by their resolution; all other nodes are
rebuilt with their children processed recursively (spec §4.1), threading the
cache state of the nested instantiations left to right. -/
def replaceOnce (E : ExternalWikitext) (inst : Instantiator)
    (params : List TemplateParameter) (ctx : PageContext)
    (cache : TemplateCache) :
    WikitextSimplifiedNode → IResult (WikitextSimplifiedNode × TemplateCache)
  | .Template name tps =>
    match inst cache (TemplateToInstantiate.Name name) tps with
    | .ok (r, c) => .ok (unwrapSingleFragment r, c)
    | .fail e => .fail e
    | .outOfFuel => .outOfFuel
  | .TemplateParameterUse name d =>
    .ok (resolveParameterUse E params ctx name d, cache)
  | .Text s => .ok (WikitextSimplifiedNode.Text s, cache)
  | .Fragment cs =>
    match replaceOnceList E inst params ctx cache cs with
    | .ok (cs2, c) => .ok (WikitextSimplifiedNode.Fragment cs2, c)
    | .fail e => .fail e
    | .outOfFuel => .outOfFuel
  | .Table attrs caps rows =>
    match replaceOnceOpt E inst params ctx cache attrs with
    | .ok (attrs2, c1) =>
      match replaceOnceList E inst params ctx c1 caps with
      | .ok (caps2, c2) =>
        match replaceOnceRows E inst params ctx c2 rows with
        | .ok (rows2, c3) =>
          .ok (WikitextSimplifiedNode.Table attrs2 caps2 rows2, c3)
        | .fail e => .fail e
        | .outOfFuel => .outOfFuel
      | .fail e => .fail e
      | .outOfFuel => .outOfFuel
    | .fail e => .fail e
    | .outOfFuel => .outOfFuel
  | .Other tag cs =>
    match replaceOnceList E inst params ctx cache cs with
    | .ok (cs2, c) => .ok (WikitextSimplifiedNode.Other tag cs2, c)
    | .fail e => .fail e
    | .outOfFuel => .outOfFuel

def replaceOnceList (E : ExternalWikitext) (inst : Instantiator)
    (params : List TemplateParameter) (ctx : PageContext)
    (cache : TemplateCache) :
    List WikitextSimplifiedNode →
      IResult (List WikitextSimplifiedNode × TemplateCache)
  | [] => .ok ([], cache)
  | n :: ns =>
    match replaceOnce E inst params ctx cache n with
    | .ok (n2, c1) =>
      match replaceOnceList E inst params ctx c1 ns with
      | .ok (ns2, c2) => .ok (n2 :: ns2, c2)
      | .fail e => .fail e
      | .outOfFuel => .outOfFuel
    | .fail e => .fail e
    | .outOfFuel => .outOfFuel

def replaceOnceOpt (E : ExternalWikitext) (inst : Instantiator)
    (params : List TemplateParameter) (ctx : PageContext)
    (cache : TemplateCache) :
    Option (List WikitextSimplifiedNode) →
      IResult (Option (List WikitextSimplifiedNode) × TemplateCache)
  | none => .ok (none, cache)
  | some l =>
    match replaceOnceList E inst params ctx cache l with
    | .ok (l2, c) => .ok (some l2, c)
    | .fail e => .fail e
    | .outOfFuel => .outOfFuel

def replaceOnceRows (E : ExternalWikitext) (inst : Instantiator)
    (params : List TemplateParameter) (ctx : PageContext)
    (cache : TemplateCache) :
    List TableRow → IResult (List TableRow × TemplateCache)
  | [] => .ok ([], cache)
  | TableRow.mk attrs cells :: rs =>
    match replaceOnceOpt E inst params ctx cache attrs with
    | .ok (attrs2, c1) =>
      match replaceOnceCells E inst params ctx c1 cells with
      | .ok (cells2, c2) =>
        match replaceOnceRows E inst params ctx c2 rs with
        | .ok (rs2, c3) => .ok (TableRow.mk attrs2 cells2 :: rs2, c3)
        | .fail e => .fail e
        | .outOfFuel => .outOfFuel
      | .fail e => .fail e
      | .outOfFuel => .outOfFuel
    | .fail e => .fail e
    | .outOfFuel => .outOfFuel

def replaceOnceCells (E : ExternalWikitext) (inst : Instantiator)
    (params : List TemplateParameter) (ctx : PageContext)
    (cache : TemplateCache) :
    List TableCell → IResult (List TableCell × TemplateCache)
  | [] => .ok ([], cache)
  | TableCell.mk attrs content :: cs =>
    match replaceOnceOpt E inst params ctx cache attrs with
    | .ok (attrs2, c1) =>
      match replaceOnceList E inst params ctx c1 content with
      | .ok (content2, c2) =>
        match replaceOnceCells E inst params ctx c2 cs with
        | .ok (cs2, c3) => .ok (TableCell.mk attrs2 content2 :: cs2, c3)
        | .fail e => .fail e
        | .outOfFuel => .outOfFuel
      | .fail e => .fail e
      | .outOfFuel => .outOfFuel
    | .fail e => .fail e
    | .outOfFuel => .outOfFuel

end

/-- The markup check of `reparse_table_cells` (`src/template.rs` lines
110-113) on the serialized content of a cell. -/
def hasMarkup (cellWikitext : String) : Bool :=
  strContainsSub cellWikitext "[[" ||
    strContainsSub cellWikitext "\x27\x27\x27" ||
    strContainsSub cellWikitext "\x27\x27" ||
    strContainsSub cellWikitext "\x7b\x7b"

/-- The per-cell body of `reparse_table_cells` (`src/template.rs` lines
103-139): serialize the cell content; if it contains markup, reparse it in
isolation; if the reparse succeeds with a non-empty node list, instantiate
the reparsed fragment (with empty parameters) and replace the cell content
with the result's children; in every other case (no markup, a parse error,
or an empty parse) the cell is returned unchanged. -/
def processCell (E : ExternalWikitext) (inst : Instantiator)
    (cache : TemplateCache) (cell : TableCell) :
    IResult (TableCell × TemplateCache) :=
  match cell with
  | TableCell.mk attrs content =>
    let cellWikitext := E.toWikitext (WikitextSimplifiedNode.Fragment content)
    if hasMarkup cellWikitext then
      match E.parse cellWikitext with
      | Except.ok parsed =>
        if parsed.isEmpty then .ok (TableCell.mk attrs content, cache)
        else
          match inst cache
              (TemplateToInstantiate.Node (WikitextSimplifiedNode.Fragment parsed)) [] with
          | .ok (WikitextSimplifiedNode.Fragment children, c) =>
            .ok (TableCell.mk attrs children, c)
          | .ok (other, c) => .ok (TableCell.mk attrs [other], c)
          | .fail e => .fail e
          | .outOfFuel => .outOfFuel
      | Except.error _ => .ok (TableCell.mk attrs content, cache)
    else .ok (TableCell.mk attrs content, cache)

mutual

/-- Embedding of `Templates::reparse_table_cells` (`src/template.rs` lines 92-150): walk
the tree descending only through `Fragment` children; at a `Table`, apply
`processCell` to every cell of every row, leaving table attributes, captions,
row attributes and cell attributes untouched; all other node kinds are left
as they are without visiting their children. -/
def reparseTableCells (E : ExternalWikitext) (inst : Instantiator)
    (cache : TemplateCache) :
    WikitextSimplifiedNode → IResult (WikitextSimplifiedNode × TemplateCache)
  | .Table attrs caps rows =>
    match reparseRows E inst cache rows with
    | .ok (rows2, c) => .ok (WikitextSimplifiedNode.Table attrs caps rows2, c)
    | .fail e => .fail e
    | .outOfFuel => .outOfFuel
  | .Fragment cs =>
    match reparseChildren E inst cache cs with
    | .ok (cs2, c) => .ok (WikitextSimplifiedNode.Fragment cs2, c)
    | .fail e => .fail e
    | .outOfFuel => .outOfFuel
  | n => .ok (n, cache)

def reparseChildren (E : ExternalWikitext) (inst : Instantiator)
    (cache : TemplateCache) :
    List WikitextSimplifiedNode →
      IResult (List WikitextSimplifiedNode × TemplateCache)
  | [] => .ok ([], cache)
  | n :: ns =>
    match reparseTableCells E inst cache n with
    | .ok (n2, c1) =>
      match reparseChildren E inst c1 ns with
      | .ok (ns2, c2) => .ok (n2 :: ns2, c2)
      | .fail e => .fail e
      | .outOfFuel => .outOfFuel
    | .fail e => .fail e
    | .outOfFuel => .outOfFuel

def reparseRows (E : ExternalWikitext) (inst : Instantiator)
    (cache : TemplateCache) :
    List TableRow → IResult (List TableRow × TemplateCache)
  | [] => .ok ([], cache)
  | TableRow.mk attrs cells :: rs =>
    match reparseCells E inst cache cells with
    | .ok (cells2, c1) =>
      match reparseRows E inst c1 rs with
      | .ok (rs2, c2) => .ok (TableRow.mk attrs cells2 :: rs2, c2)
      | .fail e => .fail e
      | .outOfFuel => .outOfFuel
    | .fail e => .fail e
    | .outOfFuel => .outOfFuel

def reparseCells (E : ExternalWikitext) (inst : Instantiator)
    (cache : TemplateCache) :
    List TableCell → IResult (List TableCell × TemplateCache)
  | [] => .ok ([], cache)
  | cell :: cs =>
    match processCell E inst cache cell with
    | .ok (cell2, c1) =>
      match reparseCells E inst c1 cs with
      | .ok (cs2, c2) => .ok (cell2 :: cs2, c2)
      | .fail e => .fail e
      | .outOfFuel => .outOfFuel
    | .fail e => .fail e
    | .outOfFuel => .outOfFuel

end

/-- The table convergence loop of `Templates::instantiate`
(`src/template.rs` lines 276-284): serialize, run one substitution pass,
re-serialize, and stop as soon as a pass leaves the serialized text
unchanged; the Rust loop is unbounded, so it takes a fuel bound here. -/
def convergeLoop (E : ExternalWikitext) (inst : Instantiator)
    (params : List TemplateParameter) (ctx : PageContext) :
    Nat → TemplateCache → WikitextSimplifiedNode →
      IResult (WikitextSimplifiedNode × TemplateCache)
  | 0, _, _ => .outOfFuel
  | Nat.succ n, cache, t =>
    let before := E.toWikitext t
    match replaceOnce E inst params ctx cache t with
    | .ok (t2, c) =>
      if E.toWikitext t2 = before then .ok (t2, c)
      else convergeLoop E inst params ctx n c t2
    | .fail e => .fail e
    | .outOfFuel => .outOfFuel

/-- The body of `Templates::instantiate` after target resolution
(`src/template.rs` lines 199-310): termination check, one substitution pass,
then either the table convergence loop followed by the cell reparse fix-up,
or the serialize/reparse roundtrip and a recursive call (through `inst`)
with the same parameters.  A failing roundtrip parse is the
`panic!("Failed to parse and simplify template ...")` at lines 298-300,
modelled as a fatal error carrying the offending text. -/
def instantiateBody (E : ExternalWikitext) (inst : Instantiator)
    (loopFuel : Nat) (params : List TemplateParameter) (ctx : PageContext)
    (cache : TemplateCache) (t : WikitextSimplifiedNode) :
    IResult (WikitextSimplifiedNode × TemplateCache) :=
  if containsUnresolved t then
    match replaceOnce E inst params ctx cache t with
    | .ok (t1, cache1) =>
      if containsTable t1 then
        match convergeLoop E inst params ctx loopFuel cache1 t1 with
        | .ok (t2, cache2) => reparseTableCells E inst cache2 t2
        | .fail e => .fail e
        | .outOfFuel => .outOfFuel
      else
        let tw := E.toWikitext t1
        match E.parse tw with
        | Except.error e =>
          .fail ("Failed to parse and simplify template " ++ tw ++ ": " ++ e)
        | Except.ok rt =>
          inst cache1
            (TemplateToInstantiate.Node (WikitextSimplifiedNode.Fragment rt)) params
    | .fail e => .fail e
    | .outOfFuel => .outOfFuel
  else .ok (t, cache)

/-- Embedding of `Templates::instantiate` (`src/template.rs` lines 178-311), with a fuel
bound on the recursion depth (and on the iteration count of the convergence
loop).  A name target that case-insensitively equals "subpagename" returns
the context's sub-page name immediately, touching neither the store nor the
cache; any other name is fetched through the parse-on-miss cache (a failure
there is the `.unwrap()` panic at line 194); a node target is used as is. -/
def instantiate (E : ExternalWikitext) (store : String → Option String)
    (ctx : PageContext) :
    Nat → TemplateCache → TemplateToInstantiate → List TemplateParameter →
      IResult (WikitextSimplifiedNode × TemplateCache)
  | 0, _, _, _ => .outOfFuel
  | Nat.succ fuel, cache, target, params =>
    match target with
    | TemplateToInstantiate.Name nm =>
      if eqIgnoreAsciiCase nm "subpagename" then
        .ok (WikitextSimplifiedNode.Text ctx.sub_page_name, cache)
      else
        match getTemplate E store cache nm with
        | Except.error e => .fail e
        | Except.ok (t, cache1) =>
          instantiateBody E (fun c tg ps => instantiate E store ctx fuel c tg ps)
            fuel params ctx cache1 t
    | TemplateToInstantiate.Node n =>
      instantiateBody E (fun c tg ps => instantiate E store ctx fuel c tg ps)
        fuel params ctx cache n

/-- Resolution of a parameter placeholder always yields a `Text` node, hence
a tree free of unresolved constructs. -/
theorem containsUnresolved_resolveParameterUse (E : ExternalWikitext)
    (params : List TemplateParameter) (ctx : PageContext) (nm : String)
    (d : Option (List WikitextSimplifiedNode)) :
    containsUnresolved (resolveParameterUse E params ctx nm d) = false := by
  unfold resolveParameterUse
  cases hf : Option.map (fun p => p.value) (List.find? (fun p => p.name == nm) params) with
  | some v => simp [hf, containsUnresolved]
  | none =>
    cases hq : eqIgnoreAsciiCase nm "subpagename" with
    | true => simp [hf, hq, containsUnresolved]
    | false => cases d <;> simp [hf, hq, containsUnresolved]

/-- Unwrapping a single-child fragment preserves freedom from unresolved
constructs. -/
theorem containsUnresolved_unwrapSingleFragment {n : WikitextSimplifiedNode}
    (h : containsUnresolved n = false) :
    containsUnresolved (unwrapSingleFragment n) = false := by
  cases n with
  | Fragment cs =>
    match cs with
    | [] => simpa [unwrapSingleFragment] using h
    | [a] =>
      simp only [containsUnresolved, containsUnresolvedList,
        Bool.or_eq_false_iff] at h
      simpa [unwrapSingleFragment] using h.1
    | a :: b :: l => simpa [unwrapSingleFragment] using h
  | Template nm tps => simpa [unwrapSingleFragment] using h
  | TemplateParameterUse nm d => simpa [unwrapSingleFragment] using h
  | Text s => simpa [unwrapSingleFragment] using h
  | Table a b r => simpa [unwrapSingleFragment] using h
  | Other t c => simpa [unwrapSingleFragment] using h

mutual

/-- A substitution pass is the identity on a tree with no unresolved
constructs (the transform rebuilds every other node unchanged). -/
theorem replaceOnce_id (E : ExternalWikitext) (inst : Instantiator)
    (params : List TemplateParameter) (ctx : PageContext) :
    ∀ (cache : TemplateCache) (n : WikitextSimplifiedNode),
      containsUnresolved n = false →
      replaceOnce E inst params ctx cache n = IResult.ok (n, cache)
  | cache, WikitextSimplifiedNode.Fragment cs, h => by
    have hl : containsUnresolvedList cs = false := by
      simpa [containsUnresolved] using h
    simp [replaceOnce, replaceOnceList_id E inst params ctx cache cs hl]
  | cache, WikitextSimplifiedNode.Template nm tps, h => by
    simp [containsUnresolved] at h
  | cache, WikitextSimplifiedNode.TemplateParameterUse nm d, h => by
    simp [containsUnresolved] at h
  | cache, WikitextSimplifiedNode.Text s, _ => by simp [replaceOnce]
  | cache, WikitextSimplifiedNode.Table attrs caps rows, h => by
    simp only [containsUnresolved, Bool.or_eq_false_iff] at h
    simp [replaceOnce, replaceOnceOpt_id E inst params ctx cache attrs h.1.1,
      replaceOnceList_id E inst params ctx cache caps h.1.2,
      replaceOnceRows_id E inst params ctx cache rows h.2]
  | cache, WikitextSimplifiedNode.Other tag cs, h => by
    have hl : containsUnresolvedList cs = false := by
      simpa [containsUnresolved] using h
    simp [replaceOnce, replaceOnceList_id E inst params ctx cache cs hl]

theorem replaceOnceList_id (E : ExternalWikitext) (inst : Instantiator)
    (params : List TemplateParameter) (ctx : PageContext) :
    ∀ (cache : TemplateCache) (l : List WikitextSimplifiedNode),
      containsUnresolvedList l = false →
      replaceOnceList E inst params ctx cache l = IResult.ok (l, cache)
  | cache, [], _ => by simp [replaceOnceList]
  | cache, n :: ns, h => by
    simp only [containsUnresolvedList, Bool.or_eq_false_iff] at h
    simp [replaceOnceList, replaceOnce_id E inst params ctx cache n h.1,
      replaceOnceList_id E inst params ctx cache ns h.2]

theorem replaceOnceOpt_id (E : ExternalWikitext) (inst : Instantiator)
    (params : List TemplateParameter) (ctx : PageContext) :
    ∀ (cache : TemplateCache) (o : Option (List WikitextSimplifiedNode)),
      containsUnresolvedOpt o = false →
      replaceOnceOpt E inst params ctx cache o = IResult.ok (o, cache)
  | cache, none, _ => by simp [replaceOnceOpt]
  | cache, some l, h => by
    have hl : containsUnresolvedList l = false := by
      simpa [containsUnresolvedOpt] using h
    simp [replaceOnceOpt, replaceOnceList_id E inst params ctx cache l hl]

theorem replaceOnceRows_id (E : ExternalWikitext) (inst : Instantiator)
    (params : List TemplateParameter) (ctx : PageContext) :
    ∀ (cache : TemplateCache) (rs : List TableRow),
      containsUnresolvedRows rs = false →
      replaceOnceRows E inst params ctx cache rs = IResult.ok (rs, cache)
  | cache, [], _ => by simp [replaceOnceRows]
  | cache, TableRow.mk attrs cells :: rs, h => by
    simp only [containsUnresolvedRows, Bool.or_eq_false_iff] at h
    simp [replaceOnceRows, replaceOnceOpt_id E inst params ctx cache attrs h.1.1,
      replaceOnceCells_id E inst params ctx cache cells h.1.2,
      replaceOnceRows_id E inst params ctx cache rs h.2]

theorem replaceOnceCells_id (E : ExternalWikitext) (inst : Instantiator)
    (params : List TemplateParameter) (ctx : PageContext) :
    ∀ (cache : TemplateCache) (cs : List TableCell),
      containsUnresolvedCells cs = false →
      replaceOnceCells E inst params ctx cache cs = IResult.ok (cs, cache)
  | cache, [], _ => by simp [replaceOnceCells]
  | cache, TableCell.mk attrs content :: cs, h => by
    simp only [containsUnresolvedCells, Bool.or_eq_false_iff] at h
    simp [replaceOnceCells, replaceOnceOpt_id E inst params ctx cache attrs h.1.1,
      replaceOnceList_id E inst params ctx cache content h.1.2,
      replaceOnceCells_id E inst params ctx cache cs h.2]

end

/-- Old cache bindings that survive into a new cache state.  Expansion only
ever prepends fresh keys, so every previously cached tree stays bound to the
same key with the same value (the observable content of "entries are never
replaced or invalidated" and "the cache itself is never mutated"). -/
def cachePreserved (c c2 : TemplateCache) : Prop :=
  ∀ k v, cacheLookup c k = some v → cacheLookup c2 k = some v

theorem cachePreserved_refl (c : TemplateCache) : cachePreserved c c :=
  fun _ _ h => h

theorem cachePreserved_trans {a b c : TemplateCache}
    (h1 : cachePreserved a b) (h2 : cachePreserved b c) : cachePreserved a c :=
  fun k v h => h2 k v (h1 k v h)

/-- Prepending a binding for a key that was absent preserves all lookups. -/
theorem cachePreserved_cons {cache : TemplateCache} {key : String}
    {t : WikitextSimplifiedNode} (hnone : cacheLookup cache key = none) :
    cachePreserved cache ((key, t) :: cache) := by
  intro k v hk
  simp only [cacheLookup]
  by_cases h : key = k
  · subst h
    rw [hnone] at hk
    exact absurd hk (by simp)
  · simp [h, hk]

/-- The embedded `Templates::get` never disturbs existing cache bindings. -/
theorem getTemplate_preserved {E : ExternalWikitext}
    {store : String → Option String} {cache : TemplateCache} {nm : String}
    {t : WikitextSimplifiedNode} {c2 : TemplateCache}
    (h : getTemplate E store cache nm = Except.ok (t, c2)) :
    cachePreserved cache c2 := by
  unfold getTemplate at h
  simp only [] at h
  split at h
  · simp only [Except.ok.injEq, Prod.mk.injEq] at h
    rw [← h.2]
    exact cachePreserved_refl cache
  · rename_i heq
    split at h
    · exact absurd h (by simp)
    · split at h
      · exact absurd h (by simp)
      · simp only [Except.ok.injEq, Prod.mk.injEq] at h
        rw [← h.2]
        exact cachePreserved_cons heq

/-- Soundness contract of a recursive instantiation entry point: a normal
return carries a tree free of unresolved constructs and a cache state that
preserves all previous bindings. -/
def InstOk (inst : Instantiator) : Prop :=
  ∀ cache target ps t c2, inst cache target ps = IResult.ok (t, c2) →
    containsUnresolved t = false ∧ cachePreserved cache c2

mutual

/-- A successful substitution pass leaves no unresolved constructs in its
output (every `Template` is replaced by a sound nested instantiation, every
placeholder by text) and only ever extends the cache. -/
theorem replaceOnce_ok (E : ExternalWikitext) (inst : Instantiator)
    (params : List TemplateParameter) (ctx : PageContext) (H : InstOk inst) :
    ∀ (cache : TemplateCache) (n t2 : WikitextSimplifiedNode) (c2 : TemplateCache),
      replaceOnce E inst params ctx cache n = IResult.ok (t2, c2) →
      containsUnresolved t2 = false ∧ cachePreserved cache c2
  | cache, WikitextSimplifiedNode.Template nm tps, t2, c2, h => by
    simp only [replaceOnce] at h
    split at h
    · rename_i r c heq
      simp only [IResult.ok.injEq, Prod.mk.injEq] at h
      obtain ⟨h1, h2⟩ := h
      subst h1; subst h2
      obtain ⟨hr, hc⟩ := H cache (TemplateToInstantiate.Name nm) tps r c heq
      exact ⟨containsUnresolved_unwrapSingleFragment hr, hc⟩
    · exact absurd h (by simp)
    · exact absurd h (by simp)
  | cache, WikitextSimplifiedNode.TemplateParameterUse nm d, t2, c2, h => by
    simp only [replaceOnce, IResult.ok.injEq, Prod.mk.injEq] at h
    obtain ⟨h1, h2⟩ := h
    subst h1; subst h2
    exact ⟨containsUnresolved_resolveParameterUse E params ctx nm d,
      cachePreserved_refl cache⟩
  | cache, WikitextSimplifiedNode.Text s, t2, c2, h => by
    simp only [replaceOnce, IResult.ok.injEq, Prod.mk.injEq] at h
    obtain ⟨h1, h2⟩ := h
    subst h1; subst h2
    exact ⟨by simp [containsUnresolved], cachePreserved_refl cache⟩
  | cache, WikitextSimplifiedNode.Fragment cs, t2, c2, h => by
    simp only [replaceOnce] at h
    split at h
    · rename_i cs2 c heq
      simp only [IResult.ok.injEq, Prod.mk.injEq] at h
      obtain ⟨h1, h2⟩ := h
      subst h1; subst h2
      obtain ⟨hr, hc⟩ := replaceOnceList_ok E inst params ctx H cache cs cs2 c heq
      exact ⟨by simpa [containsUnresolved] using hr, hc⟩
    · exact absurd h (by simp)
    · exact absurd h (by simp)
  | cache, WikitextSimplifiedNode.Table attrs caps rows, t2, c2, h => by
    simp only [replaceOnce] at h
    split at h
    · rename_i attrs2 c1 heq1
      split at h
      · rename_i caps2 cc heq2
        split at h
        · rename_i rows2 c3 heq3
          simp only [IResult.ok.injEq, Prod.mk.injEq] at h
          obtain ⟨h1, h2⟩ := h
          subst h1; subst h2
          obtain ⟨ha, hca⟩ := replaceOnceOpt_ok E inst params ctx H cache attrs attrs2 c1 heq1
          obtain ⟨hb, hcb⟩ := replaceOnceList_ok E inst params ctx H c1 caps caps2 cc heq2
          obtain ⟨hr, hcr⟩ := replaceOnceRows_ok E inst params ctx H cc rows rows2 c3 heq3
          refine ⟨by simp [containsUnresolved, ha, hb, hr], ?_⟩
          exact cachePreserved_trans hca (cachePreserved_trans hcb hcr)
        · exact absurd h (by simp)
        · exact absurd h (by simp)
      · exact absurd h (by simp)
      · exact absurd h (by simp)
    · exact absurd h (by simp)
    · exact absurd h (by simp)
  | cache, WikitextSimplifiedNode.Other tag cs, t2, c2, h => by
    simp only [replaceOnce] at h
    split at h
    · rename_i cs2 c heq
      simp only [IResult.ok.injEq, Prod.mk.injEq] at h
      obtain ⟨h1, h2⟩ := h
      subst h1; subst h2
      obtain ⟨hr, hc⟩ := replaceOnceList_ok E inst params ctx H cache cs cs2 c heq
      exact ⟨by simpa [containsUnresolved] using hr, hc⟩
    · exact absurd h (by simp)
    · exact absurd h (by simp)

theorem replaceOnceList_ok (E : ExternalWikitext) (inst : Instantiator)
    (params : List TemplateParameter) (ctx : PageContext) (H : InstOk inst) :
    ∀ (cache : TemplateCache) (l l2 : List WikitextSimplifiedNode) (c2 : TemplateCache),
      replaceOnceList E inst params ctx cache l = IResult.ok (l2, c2) →
      containsUnresolvedList l2 = false ∧ cachePreserved cache c2
  | cache, [], l2, c2, h => by
    simp only [replaceOnceList, IResult.ok.injEq, Prod.mk.injEq] at h
    obtain ⟨h1, h2⟩ := h
    subst h1; subst h2
    exact ⟨by simp [containsUnresolvedList], cachePreserved_refl cache⟩
  | cache, n :: ns, l2, c2, h => by
    simp only [replaceOnceList] at h
    split at h
    · rename_i n2 c1 heq1
      split at h
      · rename_i ns2 cc heq2
        simp only [IResult.ok.injEq, Prod.mk.injEq] at h
        obtain ⟨h1, h2⟩ := h
        subst h1; subst h2
        obtain ⟨ha, hca⟩ := replaceOnce_ok E inst params ctx H cache n n2 c1 heq1
        obtain ⟨hb, hcb⟩ := replaceOnceList_ok E inst params ctx H c1 ns ns2 cc heq2
        exact ⟨by simp [containsUnresolvedList, ha, hb], cachePreserved_trans hca hcb⟩
      · exact absurd h (by simp)
      · exact absurd h (by simp)
    · exact absurd h (by simp)
    · exact absurd h (by simp)

theorem replaceOnceOpt_ok (E : ExternalWikitext) (inst : Instantiator)
    (params : List TemplateParameter) (ctx : PageContext) (H : InstOk inst) :
    ∀ (cache : TemplateCache) (o o2 : Option (List WikitextSimplifiedNode)) (c2 : TemplateCache),
      replaceOnceOpt E inst params ctx cache o = IResult.ok (o2, c2) →
      containsUnresolvedOpt o2 = false ∧ cachePreserved cache c2
  | cache, none, o2, c2, h => by
    simp only [replaceOnceOpt, IResult.ok.injEq, Prod.mk.injEq] at h
    obtain ⟨h1, h2⟩ := h
    subst h1; subst h2
    exact ⟨by simp [containsUnresolvedOpt], cachePreserved_refl cache⟩
  | cache, some l, o2, c2, h => by
    simp only [replaceOnceOpt] at h
    split at h
    · rename_i l2 c heq
      simp only [IResult.ok.injEq, Prod.mk.injEq] at h
      obtain ⟨h1, h2⟩ := h
      subst h1; subst h2
      obtain ⟨hr, hc⟩ := replaceOnceList_ok E inst params ctx H cache l l2 c heq
      exact ⟨by simpa [containsUnresolvedOpt] using hr, hc⟩
    · exact absurd h (by simp)
    · exact absurd h (by simp)

theorem replaceOnceRows_ok (E : ExternalWikitext) (inst : Instantiator)
    (params : List TemplateParameter) (ctx : PageContext) (H : InstOk inst) :
    ∀ (cache : TemplateCache) (rs rs2 : List TableRow) (c2 : TemplateCache),
      replaceOnceRows E inst params ctx cache rs = IResult.ok (rs2, c2) →
      containsUnresolvedRows rs2 = false ∧ cachePreserved cache c2
  | cache, [], rs2, c2, h => by
    simp only [replaceOnceRows, IResult.ok.injEq, Prod.mk.injEq] at h
    obtain ⟨h1, h2⟩ := h
    subst h1; subst h2
    exact ⟨by simp [containsUnresolvedRows], cachePreserved_refl cache⟩
  | cache, TableRow.mk attrs cells :: rs, rs2, c2, h => by
    simp only [replaceOnceRows] at h
    split at h
    · rename_i attrs2 c1 heq1
      split at h
      · rename_i cells2 cc heq2
        split at h
        · rename_i rs3 c3 heq3
          simp only [IResult.ok.injEq, Prod.mk.injEq] at h
          obtain ⟨h1, h2⟩ := h
          subst h1; subst h2
          obtain ⟨ha, hca⟩ := replaceOnceOpt_ok E inst params ctx H cache attrs attrs2 c1 heq1
          obtain ⟨hb, hcb⟩ := replaceOnceCells_ok E inst params ctx H c1 cells cells2 cc heq2
          obtain ⟨hr, hcr⟩ := replaceOnceRows_ok E inst params ctx H cc rs rs3 c3 heq3
          refine ⟨by simp [containsUnresolvedRows, ha, hb, hr], ?_⟩
          exact cachePreserved_trans hca (cachePreserved_trans hcb hcr)
        · exact absurd h (by simp)
        · exact absurd h (by simp)
      · exact absurd h (by simp)
      · exact absurd h (by simp)
    · exact absurd h (by simp)
    · exact absurd h (by simp)

theorem replaceOnceCells_ok (E : ExternalWikitext) (inst : Instantiator)
    (params : List TemplateParameter) (ctx : PageContext) (H : InstOk inst) :
    ∀ (cache : TemplateCache) (cs cs2 : List TableCell) (c2 : TemplateCache),
      replaceOnceCells E inst params ctx cache cs = IResult.ok (cs2, c2) →
      containsUnresolvedCells cs2 = false ∧ cachePreserved cache c2
  | cache, [], cs2, c2, h => by
    simp only [replaceOnceCells, IResult.ok.injEq, Prod.mk.injEq] at h
    obtain ⟨h1, h2⟩ := h
    subst h1; subst h2
    exact ⟨by simp [containsUnresolvedCells], cachePreserved_refl cache⟩
  | cache, TableCell.mk attrs content :: cs, cs2, c2, h => by
    simp only [replaceOnceCells] at h
    split at h
    · rename_i attrs2 c1 heq1
      split at h
      · rename_i content2 cc heq2
        split at h
        · rename_i cs3 c3 heq3
          simp only [IResult.ok.injEq, Prod.mk.injEq] at h
          obtain ⟨h1, h2⟩ := h
          subst h1; subst h2
          obtain ⟨ha, hca⟩ := replaceOnceOpt_ok E inst params ctx H cache attrs attrs2 c1 heq1
          obtain ⟨hb, hcb⟩ := replaceOnceList_ok E inst params ctx H c1 content content2 cc heq2
          obtain ⟨hr, hcr⟩ := replaceOnceCells_ok E inst params ctx H cc cs cs3 c3 heq3
          refine ⟨by simp [containsUnresolvedCells, ha, hb, hr], ?_⟩
          exact cachePreserved_trans hca (cachePreserved_trans hcb hcr)
        · exact absurd h (by simp)
        · exact absurd h (by simp)
      · exact absurd h (by simp)
      · exact absurd h (by simp)
    · exact absurd h (by simp)
    · exact absurd h (by simp)

end

/-- The per-cell fix-up keeps the cell's attributes, only extends the cache,
and keeps the content free of unresolved constructs when it was so before
(replaced content comes from a sound instantiation; skipped content is
unchanged). -/
theorem processCell_ok (E : ExternalWikitext) (inst : Instantiator) (H : InstOk inst)
    (cache : TemplateCache) (attrs : Option (List WikitextSimplifiedNode))
    (content : List WikitextSimplifiedNode) (cell2 : TableCell) (c2 : TemplateCache)
    (h : processCell E inst cache (TableCell.mk attrs content) = IResult.ok (cell2, c2)) :
    cachePreserved cache c2 ∧
      ∃ content2, cell2 = TableCell.mk attrs content2 ∧
        (containsUnresolvedList content = false →
          containsUnresolvedList content2 = false) := by
  unfold processCell at h
  simp only [] at h
  split at h
  · split at h
    · split at h
      · simp only [IResult.ok.injEq, Prod.mk.injEq] at h
        obtain ⟨h1, h2⟩ := h
        subst h2
        exact ⟨cachePreserved_refl cache, content, h1.symm, fun hc => hc⟩
      · split at h
        · rename_i children c heq
          simp only [IResult.ok.injEq, Prod.mk.injEq] at h
          obtain ⟨h1, h2⟩ := h
          subst h2
          obtain ⟨hu, hc⟩ := H cache _ [] _ c heq
          refine ⟨hc, children, h1.symm, fun _ => ?_⟩
          simpa [containsUnresolved] using hu
        · rename_i other c _ heq
          simp only [IResult.ok.injEq, Prod.mk.injEq] at h
          obtain ⟨h1, h2⟩ := h
          subst h2
          obtain ⟨hu, hc⟩ := H cache _ [] _ c heq
          refine ⟨hc, [other], h1.symm, fun _ => ?_⟩
          simp [containsUnresolvedList, hu]
        · exact absurd h (by simp)
        · exact absurd h (by simp)
    · simp only [IResult.ok.injEq, Prod.mk.injEq] at h
      obtain ⟨h1, h2⟩ := h
      subst h2
      exact ⟨cachePreserved_refl cache, content, h1.symm, fun hc => hc⟩
  · simp only [IResult.ok.injEq, Prod.mk.injEq] at h
    obtain ⟨h1, h2⟩ := h
    subst h2
    exact ⟨cachePreserved_refl cache, content, h1.symm, fun hc => hc⟩

mutual

/-- The cell reparse fix-up only extends the cache and, on a tree already
free of unresolved constructs, keeps it free of them. -/
theorem reparseTableCells_ok (E : ExternalWikitext) (inst : Instantiator)
    (H : InstOk inst) :
    ∀ (cache : TemplateCache) (n n2 : WikitextSimplifiedNode) (c2 : TemplateCache),
      reparseTableCells E inst cache n = IResult.ok (n2, c2) →
      cachePreserved cache c2 ∧
        (containsUnresolved n = false → containsUnresolved n2 = false)
  | cache, WikitextSimplifiedNode.Table attrs caps rows, n2, c2, h => by
    simp only [reparseTableCells] at h
    split at h
    · rename_i rows2 c heq
      simp only [IResult.ok.injEq, Prod.mk.injEq] at h
      obtain ⟨h1, h2⟩ := h
      subst h1; subst h2
      obtain ⟨hc, hu⟩ := reparseRows_ok E inst H cache rows rows2 c heq
      refine ⟨hc, fun hin => ?_⟩
      simp only [containsUnresolved, Bool.or_eq_false_iff] at hin ⊢
      exact ⟨hin.1, hu hin.2⟩
    · exact absurd h (by simp)
    · exact absurd h (by simp)
  | cache, WikitextSimplifiedNode.Fragment cs, n2, c2, h => by
    simp only [reparseTableCells] at h
    split at h
    · rename_i cs2 c heq
      simp only [IResult.ok.injEq, Prod.mk.injEq] at h
      obtain ⟨h1, h2⟩ := h
      subst h1; subst h2
      obtain ⟨hc, hu⟩ := reparseChildren_ok E inst H cache cs cs2 c heq
      refine ⟨hc, fun hin => ?_⟩
      simp only [containsUnresolved] at hin ⊢
      exact hu hin
    · exact absurd h (by simp)
    · exact absurd h (by simp)
  | cache, WikitextSimplifiedNode.Template nm tps, n2, c2, h => by
    simp only [reparseTableCells, IResult.ok.injEq, Prod.mk.injEq] at h
    obtain ⟨h1, h2⟩ := h
    subst h1; subst h2
    exact ⟨cachePreserved_refl cache, fun hin => hin⟩
  | cache, WikitextSimplifiedNode.TemplateParameterUse nm d, n2, c2, h => by
    simp only [reparseTableCells, IResult.ok.injEq, Prod.mk.injEq] at h
    obtain ⟨h1, h2⟩ := h
    subst h1; subst h2
    exact ⟨cachePreserved_refl cache, fun hin => hin⟩
  | cache, WikitextSimplifiedNode.Text s, n2, c2, h => by
    simp only [reparseTableCells, IResult.ok.injEq, Prod.mk.injEq] at h
    obtain ⟨h1, h2⟩ := h
    subst h1; subst h2
    exact ⟨cachePreserved_refl cache, fun hin => hin⟩
  | cache, WikitextSimplifiedNode.Other tag cs, n2, c2, h => by
    simp only [reparseTableCells, IResult.ok.injEq, Prod.mk.injEq] at h
    obtain ⟨h1, h2⟩ := h
    subst h1; subst h2
    exact ⟨cachePreserved_refl cache, fun hin => hin⟩

theorem reparseChildren_ok (E : ExternalWikitext) (inst : Instantiator)
    (H : InstOk inst) :
    ∀ (cache : TemplateCache) (l l2 : List WikitextSimplifiedNode) (c2 : TemplateCache),
      reparseChildren E inst cache l = IResult.ok (l2, c2) →
      cachePreserved cache c2 ∧
        (containsUnresolvedList l = false → containsUnresolvedList l2 = false)
  | cache, [], l2, c2, h => by
    simp only [reparseChildren, IResult.ok.injEq, Prod.mk.injEq] at h
    obtain ⟨h1, h2⟩ := h
    subst h1; subst h2
    exact ⟨cachePreserved_refl cache, fun hin => hin⟩
  | cache, n :: ns, l2, c2, h => by
    simp only [reparseChildren] at h
    split at h
    · rename_i n2 c1 heq1
      split at h
      · rename_i ns2 cc heq2
        simp only [IResult.ok.injEq, Prod.mk.injEq] at h
        obtain ⟨h1, h2⟩ := h
        subst h1; subst h2
        obtain ⟨hca, ha⟩ := reparseTableCells_ok E inst H cache n n2 c1 heq1
        obtain ⟨hcb, hb⟩ := reparseChildren_ok E inst H c1 ns ns2 cc heq2
        refine ⟨cachePreserved_trans hca hcb, fun hin => ?_⟩
        simp only [containsUnresolvedList, Bool.or_eq_false_iff] at hin ⊢
        exact ⟨ha hin.1, hb hin.2⟩
      · exact absurd h (by simp)
      · exact absurd h (by simp)
    · exact absurd h (by simp)
    · exact absurd h (by simp)

theorem reparseRows_ok (E : ExternalWikitext) (inst : Instantiator)
    (H : InstOk inst) :
    ∀ (cache : TemplateCache) (rs rs2 : List TableRow) (c2 : TemplateCache),
      reparseRows E inst cache rs = IResult.ok (rs2, c2) →
      cachePreserved cache c2 ∧
        (containsUnresolvedRows rs = false → containsUnresolvedRows rs2 = false)
  | cache, [], rs2, c2, h => by
    simp only [reparseRows, IResult.ok.injEq, Prod.mk.injEq] at h
    obtain ⟨h1, h2⟩ := h
    subst h1; subst h2
    exact ⟨cachePreserved_refl cache, fun hin => hin⟩
  | cache, TableRow.mk attrs cells :: rs, rs2, c2, h => by
    simp only [reparseRows] at h
    split at h
    · rename_i cells2 c1 heq1
      split at h
      · rename_i rs3 cc heq2
        simp only [IResult.ok.injEq, Prod.mk.injEq] at h
        obtain ⟨h1, h2⟩ := h
        subst h1; subst h2
        obtain ⟨hca, ha⟩ := reparseCells_ok E inst H cache cells cells2 c1 heq1
        obtain ⟨hcb, hb⟩ := reparseRows_ok E inst H c1 rs rs3 cc heq2
        refine ⟨cachePreserved_trans hca hcb, fun hin => ?_⟩
        simp only [containsUnresolvedRows, Bool.or_eq_false_iff] at hin ⊢
        exact ⟨⟨hin.1.1, ha hin.1.2⟩, hb hin.2⟩
      · exact absurd h (by simp)
      · exact absurd h (by simp)
    · exact absurd h (by simp)
    · exact absurd h (by simp)

theorem reparseCells_ok (E : ExternalWikitext) (inst : Instantiator)
    (H : InstOk inst) :
    ∀ (cache : TemplateCache) (cs cs2 : List TableCell) (c2 : TemplateCache),
      reparseCells E inst cache cs = IResult.ok (cs2, c2) →
      cachePreserved cache c2 ∧
        (containsUnresolvedCells cs = false → containsUnresolvedCells cs2 = false)
  | cache, [], cs2, c2, h => by
    simp only [reparseCells, IResult.ok.injEq, Prod.mk.injEq] at h
    obtain ⟨h1, h2⟩ := h
    subst h1; subst h2
    exact ⟨cachePreserved_refl cache, fun hin => hin⟩
  | cache, TableCell.mk attrs content :: cs, cs2, c2, h => by
    simp only [reparseCells] at h
    split at h
    · rename_i cell2 c1 heq1
      split at h
      · rename_i cs3 cc heq2
        simp only [IResult.ok.injEq, Prod.mk.injEq] at h
        obtain ⟨h1, h2⟩ := h
        subst h1; subst h2
        obtain ⟨hca, content2, hcell, ha⟩ :=
          processCell_ok E inst H cache attrs content cell2 c1 heq1
        obtain ⟨hcb, hb⟩ := reparseCells_ok E inst H c1 cs cs3 cc heq2
        refine ⟨cachePreserved_trans hca hcb, fun hin => ?_⟩
        subst hcell
        simp only [containsUnresolvedCells, Bool.or_eq_false_iff] at hin ⊢
        exact ⟨⟨hin.1.1, ha hin.1.2⟩, hb hin.2⟩
      · exact absurd h (by simp)
      · exact absurd h (by simp)
    · exact absurd h (by simp)
    · exact absurd h (by simp)

end

/-- A normal exit of the convergence loop returns the output of its last
substitution pass, so the result is free of unresolved constructs and the
cache only grew. -/
theorem convergeLoop_ok (E : ExternalWikitext) (inst : Instantiator)
    (params : List TemplateParameter) (ctx : PageContext) (H : InstOk inst) :
    ∀ (fuel : Nat) (cache : TemplateCache) (t t2 : WikitextSimplifiedNode)
      (c2 : TemplateCache),
      convergeLoop E inst params ctx fuel cache t = IResult.ok (t2, c2) →
      containsUnresolved t2 = false ∧ cachePreserved cache c2
  | 0, cache, t, t2, c2, h => by simp [convergeLoop] at h
  | Nat.succ n, cache, t, t2, c2, h => by
    simp only [convergeLoop] at h
    split at h
    · rename_i t3 c heq
      obtain ⟨hu, hc⟩ := replaceOnce_ok E inst params ctx H cache t t3 c heq
      split at h
      · simp only [IResult.ok.injEq, Prod.mk.injEq] at h
        obtain ⟨h1, h2⟩ := h
        subst h1; subst h2
        exact ⟨hu, hc⟩
      · obtain ⟨h1, h2⟩ := convergeLoop_ok E inst params ctx H n c t3 t2 c2 h
        exact ⟨h1, cachePreserved_trans hc h2⟩
    · exact absurd h (by simp)
    · exact absurd h (by simp)

/-- The body of `instantiate` after resolution: a normal return is free of
unresolved constructs and only extends the cache. -/
theorem instantiateBody_ok (E : ExternalWikitext) (inst : Instantiator)
    (H : InstOk inst) (loopFuel : Nat) (params : List TemplateParameter)
    (ctx : PageContext) (cache : TemplateCache) (t t2 : WikitextSimplifiedNode)
    (c2 : TemplateCache)
    (h : instantiateBody E inst loopFuel params ctx cache t = IResult.ok (t2, c2)) :
    containsUnresolved t2 = false ∧ cachePreserved cache c2 := by
  unfold instantiateBody at h
  split at h
  · split at h
    · rename_i t1 cache1 heq1
      obtain ⟨hu1, hc1⟩ := replaceOnce_ok E inst params ctx H cache t t1 cache1 heq1
      split at h
      · split at h
        · rename_i t3 cache3 heq3
          obtain ⟨hu3, hc3⟩ := convergeLoop_ok E inst params ctx H loopFuel cache1 t1 t3 cache3 heq3
          obtain ⟨hcr, hur⟩ := reparseTableCells_ok E inst H cache3 t3 t2 c2 h
          exact ⟨hur hu3, cachePreserved_trans hc1 (cachePreserved_trans hc3 hcr)⟩
        · exact absurd h (by simp)
        · exact absurd h (by simp)
      · simp only [] at h
        split at h
        · exact absurd h (by simp)
        · obtain ⟨hu, hc⟩ := H cache1 _ params t2 c2 h
          exact ⟨hu, cachePreserved_trans hc1 hc⟩
    · exact absurd h (by simp)
    · exact absurd h (by simp)
  · simp only [IResult.ok.injEq, Prod.mk.injEq] at h
    obtain ⟨h1, h2⟩ := h
    subst h1; subst h2
    rename_i hfalse
    exact ⟨by simpa using hfalse, cachePreserved_refl cache⟩

/-- Every successful return of `instantiate`, at any fuel, hands back a tree
free of unresolved constructs and a cache extending the one it was given. -/
theorem instantiate_ok (E : ExternalWikitext) (store : String → Option String)
    (ctx : PageContext) :
    ∀ (fuel : Nat),
      InstOk (fun c tg ps => instantiate E store ctx fuel c tg ps)
  | 0 => by
    intro cache target ps t c2 h
    simp [instantiate] at h
  | Nat.succ fuel => by
    intro cache target ps t c2 h
    cases target with
    | Name nm =>
      simp only [instantiate] at h
      split at h
      · simp only [IResult.ok.injEq, Prod.mk.injEq] at h
        obtain ⟨h1, h2⟩ := h
        subst h1; subst h2
        exact ⟨by simp [containsUnresolved], cachePreserved_refl cache⟩
      · split at h
        · exact absurd h (by simp)
        · rename_i t0 cache1 heq
          obtain ⟨hu, hc⟩ := instantiateBody_ok E _
            (instantiate_ok E store ctx fuel) fuel ps ctx cache1 t0 t c2 h
          exact ⟨hu, cachePreserved_trans (getTemplate_preserved heq) hc⟩
    | Node n =>
      simp only [instantiate] at h
      exact instantiateBody_ok E _ (instantiate_ok E store ctx fuel) fuel ps ctx cache n t c2 h

mutual

/-- Sample serializer used to run the engine on concrete inputs: text prints
itself, fragments concatenate their children, every other node prints empty.
A stand-in instance of the external serializer contract (spec §6). -/
def sampleSer : WikitextSimplifiedNode → String
  | .Text s => s
  | .Fragment cs => sampleSerList cs
  | _ => ""

def sampleSerList : List WikitextSimplifiedNode → String
  | [] => ""
  | n :: ns => sampleSer n ++ sampleSerList ns

end

/-- Body of the spec's "Greeting" scenario template:
`Hello, ⟨⟨⟨name|World⟩⟩⟩!`. -/
def greetingBody : List WikitextSimplifiedNode :=
  [WikitextSimplifiedNode.Text "Hello, ",
   WikitextSimplifiedNode.TemplateParameterUse "name"
     (some [WikitextSimplifiedNode.Text "World"]),
   WikitextSimplifiedNode.Text "!"]

/-- Sample parser instance: one known template source, every other input is
read back as a single text node. -/
def sampleParse (s : String) : Except String (List WikitextSimplifiedNode) :=
  if s = "greeting-src" then Except.ok greetingBody
  else Except.ok [WikitextSimplifiedNode.Text s]

def sampleE : ExternalWikitext :=
  { parse := sampleParse, toWikitext := sampleSer }

def sampleStore (k : String) : Option String :=
  if k = "greeting" then some "greeting-src" else none

def sampleCtx : PageContext :=
  { input_path := "Test.wikitext", title := "Test", sub_page_name := "Sub" }

/-- A parser instance that rejects every input, to exercise the parse-error
paths. -/
def failE : ExternalWikitext :=
  { parse := fun _ => Except.error "boom", toWikitext := sampleSer }

/-- A document containing an unresolved placeholder next to a table whose
single cell holds literal nested-brace text that only the grammar parser
could reclassify. -/
def tableTree : WikitextSimplifiedNode :=
  WikitextSimplifiedNode.Fragment
    [WikitextSimplifiedNode.TemplateParameterUse "p" none,
     WikitextSimplifiedNode.Table none []
       [TableRow.mk none
         [TableCell.mk none [WikitextSimplifiedNode.Text "\x7b\x7bx"]]]]

/-- Scenario 1 of the spec: "Greeting" with no arguments. -/
example :
    instantiate sampleE sampleStore sampleCtx 10 []
        (TemplateToInstantiate.Name "Greeting") [] =
      IResult.ok
        (WikitextSimplifiedNode.Fragment [WikitextSimplifiedNode.Text "Hello, World!"],
         [("greeting", WikitextSimplifiedNode.Fragment greetingBody)]) := by rfl

/-- Scenario 2 of the spec: "Greeting" invoked with `name="Ada"`. -/
example :
    instantiate sampleE sampleStore sampleCtx 10 []
        (TemplateToInstantiate.Name "Greeting")
        [{ name := "name", value := "Ada" }] =
      IResult.ok
        (WikitextSimplifiedNode.Fragment [WikitextSimplifiedNode.Text "Hello, Ada!"],
         [("greeting", WikitextSimplifiedNode.Fragment greetingBody)]) := by rfl

/-- The first parameter entry whose name matches wins the `find?` lookup. -/
theorem find?_first_param (nm : String) (ps1 : List TemplateParameter)
    (p : TemplateParameter) (ps2 : List TemplateParameter) (hname : p.name = nm)
    (hprev : ∀ q ∈ ps1, q.name ≠ nm) :
    List.find? (fun q => q.name == nm) (ps1 ++ p :: ps2) = some p := by
  induction ps1 with
  | nil => simp [List.find?, hname]
  | cons a l ih =>
    have ha : (a.name == nm) = false := by
      simp only [beq_eq_false_iff_ne, ne_eq]
      exact hprev a (by simp)
    simp only [List.cons_append, List.find?, ha]
    exact ih (fun q hq => hprev q (by simp [hq]))

/-- With no matching parameter entry the `find?` lookup fails. -/
theorem find?_none_param (nm : String) (params : List TemplateParameter)
    (h : ∀ q ∈ params, q.name ≠ nm) :
    List.find? (fun q => q.name == nm) params = none := by
  induction params with
  | nil => rfl
  | cons a l ih =>
    have ha : (a.name == nm) = false := by
      simp only [beq_eq_false_iff_ne, ne_eq]
      exact h a (by simp)
    simp only [List.find?, ha]
    exact ih (fun q hq => h q (by simp [hq]))

/-- C1: for every successful call to `instantiate` (any target, parameters
and context), the returned tree contains zero `Template` and zero
`TemplateParameterUse` nodes, transitively, including inside the attributes
and content of every `Table`, `Row` and `Cell` (that is exactly what
`containsUnresolved` checks). -/
theorem instantiate_result_free_of_unresolved (E : ExternalWikitext)
    (store : String → Option String) (ctx : PageContext) (fuel : Nat)
    (cache : TemplateCache) (target : TemplateToInstantiate)
    (params : List TemplateParameter) (t : WikitextSimplifiedNode)
    (c2 : TemplateCache)
    (h : instantiate E store ctx fuel cache target params = IResult.ok (t, c2)) :
    containsUnresolved t = false :=
  (instantiate_ok E store ctx fuel cache target params t c2 h).1

/-- Witness for C1: a concrete successful instantiation of the "Greeting"
template yields a tree with no unresolved constructs. -/
theorem instantiate_result_free_of_unresolved_witness :
    containsUnresolved
      (WikitextSimplifiedNode.Fragment [WikitextSimplifiedNode.Text "Hello, World!"]) = false :=
  instantiate_result_free_of_unresolved sampleE sampleStore sampleCtx 10 []
    (TemplateToInstantiate.Name "Greeting") []
    (WikitextSimplifiedNode.Fragment [WikitextSimplifiedNode.Text "Hello, World!"])
    [("greeting", WikitextSimplifiedNode.Fragment greetingBody)] (by rfl)

/-- C3: for every context and every name that case-insensitively equals
"subpagename", `instantiate` returns the context's sub-page name as text
immediately, with the cache unchanged and independently of the store (both
are universally quantified, so neither can have been consulted). -/
theorem subpagename_short_circuit (E : ExternalWikitext)
    (store : String → Option String) (ctx : PageContext) (fuel : Nat)
    (cache : TemplateCache) (nm : String) (params : List TemplateParameter)
    (h : eqIgnoreAsciiCase nm "subpagename" = true) :
    instantiate E store ctx (Nat.succ fuel) cache
        (TemplateToInstantiate.Name nm) params =
      IResult.ok (WikitextSimplifiedNode.Text ctx.sub_page_name, cache) := by
  simp [instantiate, h]

/-- Witness for C3: invoking "SUBPAGENAME" on a store with no entries still
succeeds with the context value. -/
theorem subpagename_short_circuit_witness :
    eqIgnoreAsciiCase "SUBPAGENAME" "subpagename" = true ∧
      instantiate sampleE (fun _ => none) sampleCtx 1 []
          (TemplateToInstantiate.Name "SUBPAGENAME") [] =
        IResult.ok (WikitextSimplifiedNode.Text "Sub", []) :=
  ⟨by decide,
   subpagename_short_circuit sampleE (fun _ => none) sampleCtx 0 [] "SUBPAGENAME" []
     (by decide)⟩

/-- C4: a node target that contains no `Template` and no
`TemplateParameterUse` node anywhere is returned unchanged (the fixed
point), with an unchanged cache. -/
theorem instantiate_fixed_point_identity (E : ExternalWikitext)
    (store : String → Option String) (ctx : PageContext) (fuel : Nat)
    (cache : TemplateCache) (t : WikitextSimplifiedNode)
    (params : List TemplateParameter)
    (h : containsUnresolved t = false) :
    instantiate E store ctx (Nat.succ fuel) cache
        (TemplateToInstantiate.Node t) params =
      IResult.ok (t, cache) := by
  simp only [instantiate]
  unfold instantiateBody
  simp [h]

/-- Witness for C4: a fully resolved little tree is passed through
unchanged. -/
theorem instantiate_fixed_point_identity_witness :
    containsUnresolved
        (WikitextSimplifiedNode.Other "Bold" [WikitextSimplifiedNode.Text "x"]) = false ∧
      instantiate sampleE sampleStore sampleCtx 1 []
          (TemplateToInstantiate.Node
            (WikitextSimplifiedNode.Other "Bold" [WikitextSimplifiedNode.Text "x"])) [] =
        IResult.ok (WikitextSimplifiedNode.Other "Bold" [WikitextSimplifiedNode.Text "x"], []) :=
  ⟨by rfl,
   instantiate_fixed_point_identity sampleE sampleStore sampleCtx 0 []
     (WikitextSimplifiedNode.Other "Bold" [WikitextSimplifiedNode.Text "x"]) [] (by rfl)⟩

/-- C5: during a substitution pass every `Template` node is replaced by the
result of recursively instantiating that name with the node's own nested
parameters and the same context, and a single-child `Fragment` result is
unwrapped to its child. -/
theorem template_node_replacement (E : ExternalWikitext)
    (store : String → Option String) (ctx : PageContext) (fuel : Nat)
    (params : List TemplateParameter) (cache : TemplateCache) (nm : String)
    (tps : List TemplateParameter) (r : WikitextSimplifiedNode)
    (c2 : TemplateCache)
    (h : instantiate E store ctx fuel cache (TemplateToInstantiate.Name nm) tps =
      IResult.ok (r, c2)) :
    replaceOnce E (fun c tg ps => instantiate E store ctx fuel c tg ps) params ctx cache
        (WikitextSimplifiedNode.Template nm tps) =
      IResult.ok (unwrapSingleFragment r, c2) ∧
      ∀ ch, r = WikitextSimplifiedNode.Fragment [ch] → unwrapSingleFragment r = ch := by
  constructor
  · simp only [replaceOnce, h]
  · intro ch hr
    subst hr
    rfl

/-- Witness for C5: replacing a `Template` node referring to "Greeting"
substitutes the recursively instantiated body, unwrapped from its
single-child fragment. -/
theorem template_node_replacement_witness :
    replaceOnce sampleE
        (fun c tg ps => instantiate sampleE sampleStore sampleCtx 9 c tg ps) []
        sampleCtx [] (WikitextSimplifiedNode.Template "Greeting" []) =
      IResult.ok (WikitextSimplifiedNode.Text "Hello, World!",
        [("greeting", WikitextSimplifiedNode.Fragment greetingBody)]) ∧
      ∀ ch, WikitextSimplifiedNode.Fragment [WikitextSimplifiedNode.Text "Hello, World!"] =
          WikitextSimplifiedNode.Fragment [ch] →
        unwrapSingleFragment
            (WikitextSimplifiedNode.Fragment [WikitextSimplifiedNode.Text "Hello, World!"]) = ch :=
  template_node_replacement sampleE sampleStore sampleCtx 9 [] [] "Greeting" []
    (WikitextSimplifiedNode.Fragment [WikitextSimplifiedNode.Text "Hello, World!"])
    [("greeting", WikitextSimplifiedNode.Fragment greetingBody)] (by rfl)

/-- C9: a requested name whose normalized key (lowercased, spaces replaced
by underscores) has no store entry makes `load` fail with a message naming
both the requested name and the normalized key, and the instantiation that
requested it aborts with that same fatal error instead of continuing. -/
theorem template_not_found_fatal (E : ExternalWikitext)
    (store : String → Option String) (ctx : PageContext) (fuel : Nat)
    (cache : TemplateCache) (nm : String) (params : List TemplateParameter)
    (hmagic : eqIgnoreAsciiCase nm "subpagename" = false)
    (hcache : cacheLookup cache (normalizeKey nm) = none)
    (hstore : store (normalizeKey nm) = none) :
    loadTemplate store nm =
      Except.error ("Template not found: " ++ nm ++ " -> " ++ normalizeKey nm) ∧
      instantiate E store ctx (Nat.succ fuel) cache
          (TemplateToInstantiate.Name nm) params =
        IResult.fail ("Template not found: " ++ nm ++ " -> " ++ normalizeKey nm) := by
  have hload : loadTemplate store nm =
      Except.error ("Template not found: " ++ nm ++ " -> " ++ normalizeKey nm) := by
    unfold loadTemplate
    simp [hstore]
  refine ⟨hload, ?_⟩
  simp only [instantiate, hmagic]
  unfold getTemplate
  simp [hcache, hload]

/-- Witness for C9: requesting "No Such" fails with a message carrying both
the name and the key "no_such", and the instantiation call fails with it. -/
theorem template_not_found_fatal_witness :
    loadTemplate sampleStore "No Such" =
      Except.error "Template not found: No Such -> no_such" ∧
      instantiate sampleE sampleStore sampleCtx 5 []
          (TemplateToInstantiate.Name "No Such") [] =
        IResult.fail "Template not found: No Such -> no_such" :=
  template_not_found_fatal sampleE sampleStore sampleCtx 4 [] "No Such" []
    (by decide) (by rfl) (by rfl)

/-- C2: resolution precedence for a placeholder during a substitution pass:
the first parameter entry with a case-sensitively equal name supplies its
value as text; otherwise a name that ASCII-case-insensitively equals
"subpagename" supplies the context's sub-page name; otherwise a present
default is serialized to text; otherwise the result is empty text.  The
cache is untouched in all four cases. -/
theorem parameter_use_resolution_precedence (E : ExternalWikitext)
    (inst : Instantiator) (params : List TemplateParameter) (ctx : PageContext)
    (cache : TemplateCache) (nm : String)
    (d : Option (List WikitextSimplifiedNode)) :
    (∀ ps1 p ps2, params = ps1 ++ p :: ps2 → p.name = nm →
        (∀ q ∈ ps1, q.name ≠ nm) →
        replaceOnce E inst params ctx cache
            (WikitextSimplifiedNode.TemplateParameterUse nm d) =
          IResult.ok (WikitextSimplifiedNode.Text p.value, cache)) ∧
    ((∀ q ∈ params, q.name ≠ nm) →
      eqIgnoreAsciiCase nm "subpagename" = true →
        replaceOnce E inst params ctx cache
            (WikitextSimplifiedNode.TemplateParameterUse nm d) =
          IResult.ok (WikitextSimplifiedNode.Text ctx.sub_page_name, cache)) ∧
    ((∀ q ∈ params, q.name ≠ nm) →
      eqIgnoreAsciiCase nm "subpagename" = false →
      ∀ dl, d = some dl →
        replaceOnce E inst params ctx cache
            (WikitextSimplifiedNode.TemplateParameterUse nm d) =
          IResult.ok
            (WikitextSimplifiedNode.Text
              (E.toWikitext (WikitextSimplifiedNode.Fragment dl)), cache)) ∧
    ((∀ q ∈ params, q.name ≠ nm) →
      eqIgnoreAsciiCase nm "subpagename" = false → d = none →
        replaceOnce E inst params ctx cache
            (WikitextSimplifiedNode.TemplateParameterUse nm d) =
          IResult.ok (WikitextSimplifiedNode.Text "", cache)) := by
  refine ⟨?_, ?_, ?_, ?_⟩
  · intro ps1 p ps2 hps hname hprev
    subst hps
    have hf := find?_first_param nm ps1 p ps2 hname hprev
    simp only [replaceOnce]
    unfold resolveParameterUse
    simp [hf]
  · intro hall hmagic
    have hf := find?_none_param nm params hall
    simp only [replaceOnce]
    unfold resolveParameterUse
    simp [hf, hmagic]
  · intro hall hmagic dl hd
    subst hd
    have hf := find?_none_param nm params hall
    simp only [replaceOnce]
    unfold resolveParameterUse
    simp [hf, hmagic]
  · intro hall hmagic hd
    subst hd
    have hf := find?_none_param nm params hall
    simp only [replaceOnce]
    unfold resolveParameterUse
    simp [hf, hmagic]

/-- Witness for C2: with two same-named arguments the first wins; with no
argument, no magic name and no default the placeholder becomes empty text. -/
theorem parameter_use_resolution_precedence_witness :
    replaceOnce sampleE (fun _ _ _ => IResult.outOfFuel)
        [{ name := "name", value := "First" }, { name := "name", value := "Second" }]
        sampleCtx [] (WikitextSimplifiedNode.TemplateParameterUse "name" none) =
      IResult.ok (WikitextSimplifiedNode.Text "First", []) ∧
    replaceOnce sampleE (fun _ _ _ => IResult.outOfFuel) [] sampleCtx []
        (WikitextSimplifiedNode.TemplateParameterUse "other" none) =
      IResult.ok (WikitextSimplifiedNode.Text "", []) :=
  ⟨(parameter_use_resolution_precedence sampleE (fun _ _ _ => IResult.outOfFuel)
      [{ name := "name", value := "First" }, { name := "name", value := "Second" }]
      sampleCtx [] "name" none).1
      [] { name := "name", value := "First" } [{ name := "name", value := "Second" }]
      rfl rfl (by simp),
   (parameter_use_resolution_precedence sampleE (fun _ _ _ => IResult.outOfFuel)
      [] sampleCtx [] "other" none).2.2.2 (by simp) (by decide) rfl⟩

/-- C7 (observable content): a cache hit returns the cached tree with the
cache unchanged (so a key is parsed and inserted at most once per run), a
miss inserts exactly one new binding for the normalized key, and every
successful `instantiate` preserves every pre-existing binding unchanged
(the cache is never mutated by expansion; each invocation works on a copy
of the cached tree). -/
theorem cache_insert_once_and_preserved (E : ExternalWikitext)
    (store : String → Option String) (ctx : PageContext) :
    (∀ cache nm v, cacheLookup cache (normalizeKey nm) = some v →
        getTemplate E store cache nm = Except.ok (v, cache)) ∧
    (∀ cache nm t c2, cacheLookup cache (normalizeKey nm) = none →
        getTemplate E store cache nm = Except.ok (t, c2) →
        c2 = (normalizeKey nm, t) :: cache) ∧
    (∀ fuel cache target params t c2,
        instantiate E store ctx fuel cache target params = IResult.ok (t, c2) →
        cachePreserved cache c2) := by
  refine ⟨?_, ?_, ?_⟩
  · intro cache nm v hv
    unfold getTemplate
    simp [hv]
  · intro cache nm t c2 hnone hok
    unfold getTemplate at hok
    simp only [] at hok
    split at hok
    · rename_i v heq
      rw [hnone] at heq
      exact absurd heq (by simp)
    · split at hok
      · exact absurd hok (by simp)
      · split at hok
        · exact absurd hok (by simp)
        · simp only [Except.ok.injEq, Prod.mk.injEq] at hok
          obtain ⟨h1, h2⟩ := hok
          subst h1
          exact h2.symm
  · intro fuel cache target params t c2 h
    exact (instantiate_ok E store ctx fuel cache target params t c2 h).2

/-- Witness for C7: a hit on "Greeting" leaves the cache alone; a miss on an
empty cache inserts exactly the one new binding; a concrete instantiation
preserves a pre-existing binding. -/
theorem cache_insert_once_and_preserved_witness :
    getTemplate sampleE sampleStore
        [("greeting", WikitextSimplifiedNode.Fragment greetingBody)] "Greeting" =
      Except.ok (WikitextSimplifiedNode.Fragment greetingBody,
        [("greeting", WikitextSimplifiedNode.Fragment greetingBody)]) ∧
    [("greeting", WikitextSimplifiedNode.Fragment greetingBody)] =
      [(normalizeKey "Greeting", WikitextSimplifiedNode.Fragment greetingBody)] ∧
    cachePreserved [("greeting", WikitextSimplifiedNode.Fragment greetingBody)]
      [("greeting", WikitextSimplifiedNode.Fragment greetingBody)] :=
  ⟨(cache_insert_once_and_preserved sampleE sampleStore sampleCtx).1
      [("greeting", WikitextSimplifiedNode.Fragment greetingBody)] "Greeting"
      (WikitextSimplifiedNode.Fragment greetingBody) (by rfl),
   (cache_insert_once_and_preserved sampleE sampleStore sampleCtx).2.1
      [] "Greeting" (WikitextSimplifiedNode.Fragment greetingBody)
      [("greeting", WikitextSimplifiedNode.Fragment greetingBody)] (by rfl) (by rfl),
   (cache_insert_once_and_preserved sampleE sampleStore sampleCtx).2.2
      10 [("greeting", WikitextSimplifiedNode.Fragment greetingBody)]
      (TemplateToInstantiate.Name "Greeting") []
      (WikitextSimplifiedNode.Fragment [WikitextSimplifiedNode.Text "Hello, World!"])
      [("greeting", WikitextSimplifiedNode.Fragment greetingBody)] (by rfl)⟩

/-- C8: behaviour of the table-path convergence loop.  (1) The loop exits
exactly when a pass leaves the whole tree's serialization unchanged,
returning that pass's output; (2) otherwise it repeats with the pass's
output; (3) whenever a pass succeeds under a sound instantiator (which
`instantiate` is, standing in for an acyclic template set given enough
fuel), the loop terminates within two further iterations with a stable
serialization; (4) only after the loop converges does the cell reparse
fix-up run, on the converged tree. -/
theorem table_convergence_loop_behavior (E : ExternalWikitext)
    (inst : Instantiator) (params : List TemplateParameter) (ctx : PageContext) :
    (∀ n cache t t2 c2,
        replaceOnce E inst params ctx cache t = IResult.ok (t2, c2) →
        E.toWikitext t2 = E.toWikitext t →
        convergeLoop E inst params ctx (Nat.succ n) cache t = IResult.ok (t2, c2)) ∧
    (∀ n cache t t2 c2,
        replaceOnce E inst params ctx cache t = IResult.ok (t2, c2) →
        E.toWikitext t2 ≠ E.toWikitext t →
        convergeLoop E inst params ctx (Nat.succ n) cache t =
          convergeLoop E inst params ctx n c2 t2) ∧
    (InstOk inst →
      ∀ n cache t t2 c2,
        replaceOnce E inst params ctx cache t = IResult.ok (t2, c2) →
        convergeLoop E inst params ctx (Nat.succ (Nat.succ n)) cache t =
          IResult.ok (t2, c2)) ∧
    (∀ loopFuel cache t t1 cache1 t2 cache2,
        containsUnresolved t = true →
        replaceOnce E inst params ctx cache t = IResult.ok (t1, cache1) →
        containsTable t1 = true →
        convergeLoop E inst params ctx loopFuel cache1 t1 = IResult.ok (t2, cache2) →
        instantiateBody E inst loopFuel params ctx cache t =
          reparseTableCells E inst cache2 t2) := by
  refine ⟨?_, ?_, ?_, ?_⟩
  · intro n cache t t2 c2 hrepl hser
    simp [convergeLoop, hrepl, hser]
  · intro n cache t t2 c2 hrepl hser
    simp [convergeLoop, hrepl, hser]
  · intro H n cache t t2 c2 hrepl
    have hu := (replaceOnce_ok E inst params ctx H cache t t2 c2 hrepl).1
    have hid := replaceOnce_id E inst params ctx c2 t2 hu
    by_cases hser : E.toWikitext t2 = E.toWikitext t
    · simp [convergeLoop, hrepl, hser]
    · simp [convergeLoop, hrepl, hser, hid]
  · intro loopFuel cache t t1 cache1 t2 cache2 hunres hrepl htable hconv
    unfold instantiateBody
    simp [hunres, hrepl, htable, hconv]

/-- Witness for C8: a stable pass exits at once; under the (vacuously sound)
instantiator that is never consulted, a successful pass makes the loop
terminate with fuel two; and on the concrete table document the fix-up runs
on the converged tree. -/
theorem table_convergence_loop_behavior_witness :
    convergeLoop sampleE (fun _ _ _ => IResult.outOfFuel) [] sampleCtx 2 []
        (WikitextSimplifiedNode.Text "a") =
      IResult.ok (WikitextSimplifiedNode.Text "a", []) ∧
    instantiateBody failE
        (fun c tg ps => instantiate failE (fun _ => none) sampleCtx 9 c tg ps)
        9 [] sampleCtx [] tableTree =
      reparseTableCells failE
        (fun c tg ps => instantiate failE (fun _ => none) sampleCtx 9 c tg ps) []
        (WikitextSimplifiedNode.Fragment
          [WikitextSimplifiedNode.Text "",
           WikitextSimplifiedNode.Table none []
             [TableRow.mk none
               [TableCell.mk none [WikitextSimplifiedNode.Text "\x7b\x7bx"]]]]) :=
  ⟨(table_convergence_loop_behavior sampleE (fun _ _ _ => IResult.outOfFuel) []
      sampleCtx).2.2.1
      (by intro c tg ps t c2 h; exact absurd h (by simp))
      0 [] (WikitextSimplifiedNode.Text "a") (WikitextSimplifiedNode.Text "a") []
      (by rfl),
   (table_convergence_loop_behavior failE
      (fun c tg ps => instantiate failE (fun _ => none) sampleCtx 9 c tg ps) []
      sampleCtx).2.2.2
      9 [] tableTree
      (WikitextSimplifiedNode.Fragment
        [WikitextSimplifiedNode.Text "",
         WikitextSimplifiedNode.Table none []
           [TableRow.mk none
             [TableCell.mk none [WikitextSimplifiedNode.Text "\x7b\x7bx"]]]]) []
      (WikitextSimplifiedNode.Fragment
        [WikitextSimplifiedNode.Text "",
         WikitextSimplifiedNode.Table none []
           [TableRow.mk none
             [TableCell.mk none [WikitextSimplifiedNode.Text "\x7b\x7bx"]]]]) []
      (by rfl) (by rfl) (by rfl) (by rfl)⟩

/-- C6 (amended): a grammar-parser failure on the whole-tree roundtrip of
the non-table path is fatal, with the offending serialized text carried in
the error message; but a failure on a table cell's isolated serialization
during the cell reparse fix-up is NOT fatal: the `if let Ok` at
`src/template.rs` line 116 silently skips the cell, leaving its content in
place. -/
theorem parse_failure_roundtrip_fatal_cell_skipped (E : ExternalWikitext) :
    (∀ (store : String → Option String) (ctx : PageContext) (fuel : Nat)
        (params : List TemplateParameter) (cache : TemplateCache)
        (t t1 : WikitextSimplifiedNode) (cache1 : TemplateCache) (e : String),
        containsUnresolved t = true →
        replaceOnce E (fun c tg ps => instantiate E store ctx fuel c tg ps)
            params ctx cache t = IResult.ok (t1, cache1) →
        containsTable t1 = false →
        E.parse (E.toWikitext t1) = Except.error e →
        instantiate E store ctx (Nat.succ fuel) cache
            (TemplateToInstantiate.Node t) params =
          IResult.fail
            ("Failed to parse and simplify template " ++ E.toWikitext t1 ++ ": " ++ e)) ∧
    (∀ (inst : Instantiator) (cache : TemplateCache)
        (attrs : Option (List WikitextSimplifiedNode))
        (content : List WikitextSimplifiedNode) (e : String),
        hasMarkup (E.toWikitext (WikitextSimplifiedNode.Fragment content)) = true →
        E.parse (E.toWikitext (WikitextSimplifiedNode.Fragment content)) =
          Except.error e →
        processCell E inst cache (TableCell.mk attrs content) =
          IResult.ok (TableCell.mk attrs content, cache)) := by
  constructor
  · intro store ctx fuel params cache t t1 cache1 e hunres hrepl htable hparse
    simp only [instantiate]
    unfold instantiateBody
    simp [hunres, hrepl, htable, hparse]
  · intro inst cache attrs content e hm hp
    unfold processCell
    simp [hm, hp]

/-- Witness for the amended C6: a concrete run of each half.  The roundtrip
half fails fatally on a placeholder document whose serialization the parser
rejects; the cell half returns the cell untouched. -/
theorem parse_failure_roundtrip_fatal_cell_skipped_witness :
    instantiate failE (fun _ => none) sampleCtx 5 []
        (TemplateToInstantiate.Node
          (WikitextSimplifiedNode.TemplateParameterUse "p" none)) [] =
      IResult.fail "Failed to parse and simplify template : boom" ∧
    processCell failE (fun _ _ _ => IResult.outOfFuel) [] (TableCell.mk none
        [WikitextSimplifiedNode.Text "\x7b\x7bx"]) =
      IResult.ok (TableCell.mk none [WikitextSimplifiedNode.Text "\x7b\x7bx"], []) :=
  ⟨(parse_failure_roundtrip_fatal_cell_skipped failE).1 (fun _ => none) sampleCtx 4
      [] [] (WikitextSimplifiedNode.TemplateParameterUse "p" none)
      (WikitextSimplifiedNode.Text "") [] "boom" (by rfl) (by rfl) (by rfl) (by rfl),
   (parse_failure_roundtrip_fatal_cell_skipped failE).2
      (fun _ _ _ => IResult.outOfFuel) [] none
      [WikitextSimplifiedNode.Text "\x7b\x7bx"] "boom" (by rfl) (by rfl)⟩

/-- Counterexample to C6 as stated: the parser rejects the isolated
serialization of the table cell (every parse fails here), the cell's
serialized content plainly contains markup, and yet the whole instantiation
SUCCEEDS, with the rejected cell silently left in place inside the returned
table — it does not fail fatally with a `ParseError`. -/
theorem cell_parse_failure_not_fatal_counterexample :
    failE.parse (failE.toWikitext (WikitextSimplifiedNode.Fragment
        [WikitextSimplifiedNode.Text "\x7b\x7bx"])) = Except.error "boom" ∧
    hasMarkup (failE.toWikitext (WikitextSimplifiedNode.Fragment
        [WikitextSimplifiedNode.Text "\x7b\x7bx"])) = true ∧
    instantiate failE (fun _ => none) sampleCtx 10 []
        (TemplateToInstantiate.Node tableTree) [] =
      IResult.ok (WikitextSimplifiedNode.Fragment
        [WikitextSimplifiedNode.Text "",
         WikitextSimplifiedNode.Table none []
           [TableRow.mk none
             [TableCell.mk none [WikitextSimplifiedNode.Text "\x7b\x7bx"]]]], []) :=
  ⟨rfl, rfl, rfl⟩

/-- A cell is touched by the fix-up exactly when its serialized content
contains markup and the isolated reparse succeeds with a non-empty result
(`src/template.rs` lines 110-120). -/
def cellTouched (E : ExternalWikitext) (cell : TableCell) : Bool :=
  hasMarkup (E.toWikitext (WikitextSimplifiedNode.Fragment cell.content)) &&
    (match E.parse (E.toWikitext (WikitextSimplifiedNode.Fragment cell.content)) with
     | Except.ok l => !l.isEmpty
     | Except.error _ => false)

/-- Frame condition for one cell under the fix-up: attributes unchanged,
and content unchanged unless the cell is touched. -/
def cellFrame (E : ExternalWikitext) (c c2 : TableCell) : Prop :=
  c2.attributes = c.attributes ∧ (cellTouched E c = false → c2.content = c.content)

def cellsFrame (E : ExternalWikitext) : List TableCell → List TableCell → Prop
  | [], [] => True
  | c :: cs, c2 :: cs2 => cellFrame E c c2 ∧ cellsFrame E cs cs2
  | _, _ => False

/-- Frame condition for one row: attributes unchanged and cells pairwise
frame-related (in particular the cell count is unchanged). -/
def rowFrame (E : ExternalWikitext) (r r2 : TableRow) : Prop :=
  r2.attributes = r.attributes ∧ cellsFrame E r.cells r2.cells

def rowsFrame (E : ExternalWikitext) : List TableRow → List TableRow → Prop
  | [], [] => True
  | r :: rs, r2 :: rs2 => rowFrame E r r2 ∧ rowsFrame E rs rs2
  | _, _ => False

mutual

/-- Frame condition of the cell reparse fix-up on a whole node: fragments
keep their arity with frame-related children, tables keep attributes,
captions and rows pairwise frame-related, every other node kind is returned
exactly as it was (the fix-up does not descend into it). -/
def nodeFrame (E : ExternalWikitext) :
    WikitextSimplifiedNode → WikitextSimplifiedNode → Prop
  | .Fragment cs, .Fragment cs2 => listFrame E cs cs2
  | .Fragment _, _ => False
  | .Table attrs caps rows, .Table attrs2 caps2 rows2 =>
    attrs2 = attrs ∧ caps2 = caps ∧ rowsFrame E rows rows2
  | .Table _ _ _, _ => False
  | n, n2 => n2 = n

def listFrame (E : ExternalWikitext) :
    List WikitextSimplifiedNode → List WikitextSimplifiedNode → Prop
  | [], [] => True
  | n :: ns, n2 :: ns2 => nodeFrame E n n2 ∧ listFrame E ns ns2
  | _, _ => False

end

/-- The node kinds through which the fix-up descends. -/
def isFragmentOrTable : WikitextSimplifiedNode → Bool
  | .Fragment _ => true
  | .Table _ _ _ => true
  | _ => false

theorem rowsFrame_length (E : ExternalWikitext) :
    ∀ (rs rs2 : List TableRow), rowsFrame E rs rs2 → rs2.length = rs.length
  | [], [], _ => rfl
  | [], _ :: _, h => absurd h (by simp [rowsFrame])
  | _ :: _, [], h => absurd h (by simp [rowsFrame])
  | _ :: rs, _ :: rs2, h => by
    simp only [rowsFrame] at h
    simp [rowsFrame_length E rs rs2 h.2]

theorem cellsFrame_length (E : ExternalWikitext) :
    ∀ (cs cs2 : List TableCell), cellsFrame E cs cs2 → cs2.length = cs.length
  | [], [], _ => rfl
  | [], _ :: _, h => absurd h (by simp [cellsFrame])
  | _ :: _, [], h => absurd h (by simp [cellsFrame])
  | _ :: cs, _ :: cs2, h => by
    simp only [cellsFrame] at h
    simp [cellsFrame_length E cs cs2 h.2]

/-- The per-cell fix-up satisfies the cell frame condition: attributes are
never altered, and the content is altered only when the serialized content
has markup and reparses successfully to a non-empty node list. -/
theorem processCell_frame (E : ExternalWikitext) (inst : Instantiator)
    (cache : TemplateCache) (attrs : Option (List WikitextSimplifiedNode))
    (content : List WikitextSimplifiedNode) (cell2 : TableCell)
    (c2 : TemplateCache)
    (h : processCell E inst cache (TableCell.mk attrs content) = IResult.ok (cell2, c2)) :
    cellFrame E (TableCell.mk attrs content) cell2 := by
  unfold processCell at h
  simp only [] at h
  split at h
  · rename_i hm
    split at h
    · rename_i parsed hp
      split at h
      · simp only [IResult.ok.injEq, Prod.mk.injEq] at h
        rw [← h.1]
        exact ⟨rfl, fun _ => rfl⟩
      · rename_i hemp
        have htouch : cellTouched E (TableCell.mk attrs content) = true := by
          unfold cellTouched
          simp only [TableCell.content] at hm hp ⊢
          simp [hm, hp, Bool.not_eq_true', Bool.not_eq_false] at hemp ⊢
          simpa using hemp
        split at h
        · rename_i children c heq
          simp only [IResult.ok.injEq, Prod.mk.injEq] at h
          rw [← h.1]
          exact ⟨rfl, fun hf => absurd htouch (by simp [hf])⟩
        · rename_i other c _ heq
          simp only [IResult.ok.injEq, Prod.mk.injEq] at h
          rw [← h.1]
          exact ⟨rfl, fun hf => absurd htouch (by simp [hf])⟩
        · exact absurd h (by simp)
        · exact absurd h (by simp)
    · simp only [IResult.ok.injEq, Prod.mk.injEq] at h
      rw [← h.1]
      exact ⟨rfl, fun _ => rfl⟩
  · simp only [IResult.ok.injEq, Prod.mk.injEq] at h
    rw [← h.1]
    exact ⟨rfl, fun _ => rfl⟩

mutual

theorem reparseTableCells_frame (E : ExternalWikitext) (inst : Instantiator) :
    ∀ (cache : TemplateCache) (n n2 : WikitextSimplifiedNode) (c2 : TemplateCache),
      reparseTableCells E inst cache n = IResult.ok (n2, c2) → nodeFrame E n n2
  | cache, WikitextSimplifiedNode.Table attrs caps rows, n2, c2, h => by
    simp only [reparseTableCells] at h
    split at h
    · rename_i rows2 c heq
      simp only [IResult.ok.injEq, Prod.mk.injEq] at h
      rw [← h.1]
      exact ⟨rfl, rfl, reparseRows_frame E inst cache rows rows2 c heq⟩
    · exact absurd h (by simp)
    · exact absurd h (by simp)
  | cache, WikitextSimplifiedNode.Fragment cs, n2, c2, h => by
    simp only [reparseTableCells] at h
    split at h
    · rename_i cs2 c heq
      simp only [IResult.ok.injEq, Prod.mk.injEq] at h
      rw [← h.1]
      exact reparseChildren_frame E inst cache cs cs2 c heq
    · exact absurd h (by simp)
    · exact absurd h (by simp)
  | cache, WikitextSimplifiedNode.Template nm tps, n2, c2, h => by
    simp only [reparseTableCells, IResult.ok.injEq, Prod.mk.injEq] at h
    rw [← h.1]
    rfl
  | cache, WikitextSimplifiedNode.TemplateParameterUse nm d, n2, c2, h => by
    simp only [reparseTableCells, IResult.ok.injEq, Prod.mk.injEq] at h
    rw [← h.1]
    rfl
  | cache, WikitextSimplifiedNode.Text s, n2, c2, h => by
    simp only [reparseTableCells, IResult.ok.injEq, Prod.mk.injEq] at h
    rw [← h.1]
    rfl
  | cache, WikitextSimplifiedNode.Other tag cs, n2, c2, h => by
    simp only [reparseTableCells, IResult.ok.injEq, Prod.mk.injEq] at h
    rw [← h.1]
    rfl

theorem reparseChildren_frame (E : ExternalWikitext) (inst : Instantiator) :
    ∀ (cache : TemplateCache) (l l2 : List WikitextSimplifiedNode) (c2 : TemplateCache),
      reparseChildren E inst cache l = IResult.ok (l2, c2) → listFrame E l l2
  | cache, [], l2, c2, h => by
    simp only [reparseChildren, IResult.ok.injEq, Prod.mk.injEq] at h
    rw [← h.1]
    trivial
  | cache, n :: ns, l2, c2, h => by
    simp only [reparseChildren] at h
    split at h
    · rename_i n2 c1 heq1
      split at h
      · rename_i ns2 cc heq2
        simp only [IResult.ok.injEq, Prod.mk.injEq] at h
        rw [← h.1]
        exact ⟨reparseTableCells_frame E inst cache n n2 c1 heq1,
          reparseChildren_frame E inst c1 ns ns2 cc heq2⟩
      · exact absurd h (by simp)
      · exact absurd h (by simp)
    · exact absurd h (by simp)
    · exact absurd h (by simp)

theorem reparseRows_frame (E : ExternalWikitext) (inst : Instantiator) :
    ∀ (cache : TemplateCache) (rs rs2 : List TableRow) (c2 : TemplateCache),
      reparseRows E inst cache rs = IResult.ok (rs2, c2) → rowsFrame E rs rs2
  | cache, [], rs2, c2, h => by
    simp only [reparseRows, IResult.ok.injEq, Prod.mk.injEq] at h
    rw [← h.1]
    trivial
  | cache, TableRow.mk attrs cells :: rs, rs2, c2, h => by
    simp only [reparseRows] at h
    split at h
    · rename_i cells2 c1 heq1
      split at h
      · rename_i rs3 cc heq2
        simp only [IResult.ok.injEq, Prod.mk.injEq] at h
        rw [← h.1]
        exact ⟨⟨rfl, reparseCells_frame E inst cache cells cells2 c1 heq1⟩,
          reparseRows_frame E inst c1 rs rs3 cc heq2⟩
      · exact absurd h (by simp)
      · exact absurd h (by simp)
    · exact absurd h (by simp)
    · exact absurd h (by simp)

theorem reparseCells_frame (E : ExternalWikitext) (inst : Instantiator) :
    ∀ (cache : TemplateCache) (cs cs2 : List TableCell) (c2 : TemplateCache),
      reparseCells E inst cache cs = IResult.ok (cs2, c2) → cellsFrame E cs cs2
  | cache, [], cs2, c2, h => by
    simp only [reparseCells, IResult.ok.injEq, Prod.mk.injEq] at h
    rw [← h.1]
    trivial
  | cache, TableCell.mk attrs content :: cs, cs2, c2, h => by
    simp only [reparseCells] at h
    split at h
    · rename_i cell2 c1 heq1
      split at h
      · rename_i cs3 cc heq2
        simp only [IResult.ok.injEq, Prod.mk.injEq] at h
        rw [← h.1]
        exact ⟨processCell_frame E inst cache attrs content cell2 c1 heq1,
          reparseCells_frame E inst c1 cs cs3 cc heq2⟩
      · exact absurd h (by simp)
      · exact absurd h (by simp)
    · exact absurd h (by simp)
    · exact absurd h (by simp)

end

/-- C10: the cell reparse fix-up only ever modifies the content of table
cells that are touched (serialized content containing one of "[[", three
apostrophes, two apostrophes or two opening braces AND reparsing to a
non-empty node list); every cell's attributes, every row's attributes, the
row and cell counts of every table, and table attributes and captions are
unchanged (`nodeFrame`, with `rowsFrame`/`cellsFrame` implying equal
counts), and the fix-up descends only through `Fragment` and `Table` nodes:
any other node kind is returned identically with the cache untouched, so
tables nested inside other node kinds are never visited. -/
theorem reparse_fixup_frame (E : ExternalWikitext) (inst : Instantiator) :
    (∀ cache n n2 c2,
        reparseTableCells E inst cache n = IResult.ok (n2, c2) → nodeFrame E n n2) ∧
    (∀ cache n, isFragmentOrTable n = false →
        reparseTableCells E inst cache n = IResult.ok (n, cache)) ∧
    (∀ rs rs2, rowsFrame E rs rs2 → rs2.length = rs.length) ∧
    (∀ cs cs2, cellsFrame E cs cs2 → cs2.length = cs.length) := by
  refine ⟨fun cache n n2 c2 h => reparseTableCells_frame E inst cache n n2 c2 h,
    ?_, fun rs rs2 h => rowsFrame_length E rs rs2 h,
    fun cs cs2 h => cellsFrame_length E cs cs2 h⟩
  intro cache n hn
  cases n with
  | Fragment cs => simp [isFragmentOrTable] at hn
  | Table attrs caps rows => simp [isFragmentOrTable] at hn
  | Template nm tps => simp [reparseTableCells]
  | TemplateParameterUse nm d => simp [reparseTableCells]
  | Text s => simp [reparseTableCells]
  | Other tag cs => simp [reparseTableCells]

/-- Witness for C10: on a concrete table whose single cell's reparse is
rejected, the fix-up yields a frame-related table (cell untouched), and a
node of another kind is returned identically. -/
theorem reparse_fixup_frame_witness :
    nodeFrame failE
      (WikitextSimplifiedNode.Table none []
        [TableRow.mk none
          [TableCell.mk none [WikitextSimplifiedNode.Text "\x7b\x7bx"]]])
      (WikitextSimplifiedNode.Table none []
        [TableRow.mk none
          [TableCell.mk none [WikitextSimplifiedNode.Text "\x7b\x7bx"]]]) ∧
    reparseTableCells failE (fun _ _ _ => IResult.outOfFuel) []
        (WikitextSimplifiedNode.Other "Bold" [WikitextSimplifiedNode.Text "t"]) =
      IResult.ok (WikitextSimplifiedNode.Other "Bold" [WikitextSimplifiedNode.Text "t"], []) :=
  ⟨(reparse_fixup_frame failE (fun _ _ _ => IResult.outOfFuel)).1 []
      (WikitextSimplifiedNode.Table none []
        [TableRow.mk none
          [TableCell.mk none [WikitextSimplifiedNode.Text "\x7b\x7bx"]]])
      (WikitextSimplifiedNode.Table none []
        [TableRow.mk none
          [TableCell.mk none [WikitextSimplifiedNode.Text "\x7b\x7bx"]]]) [] (by rfl),
   (reparse_fixup_frame failE (fun _ _ _ => IResult.outOfFuel)).2.1 []
      (WikitextSimplifiedNode.Other "Bold" [WikitextSimplifiedNode.Text "t"]) (by rfl)⟩
